import Mathlib

/-!
Verification of the credctl credential broker core.

This file shallowly embeds the parts of the Go sources that the verified
properties are about:

* `internal/provider/oauth2/common/types.go` — token cache, PKCE material,
  the authorization-code flow (callback validation);
* `internal/provider/oauth2/common/device.go` — device-flow poll loop;
* `internal/provider/oauth2/common/http.go` — `IsTokenValid`;
* `internal/provider/oauth2/common/token.go` — token-endpoint grants;
* the `oauth2` universal provider and the `oauth2-device` provider;
* `internal/provider/command/command.go` — the command provider;
* `internal/daemon/state.go` and the daemon action handlers and dispatch.

Conventions: Go `time.Time` becomes an absolute number of seconds (`Int`);
Go `nil` pointers become `Option`; network I/O becomes an explicit oracle
from requests to responses, and the list of requests a computation issued
is returned alongside its result; randomness (`crypto/rand`) becomes an
explicit byte-list argument; a Go `panic` is modelled as an error result.
-/

/-! ## Token cache (`common/types.go`, `common/http.go`) -/

/-- `common.TokenCache`: in-memory holder of the current tokens.
`expiresAt` is an absolute time in seconds. -/
structure TokenCache where
  accessToken : String
  refreshToken : String := ""
  tokenType : String := ""
  expiresAt : Int
  idToken : String := ""
deriving Repr, DecidableEq

/-- `common.TokenResponse`: a decoded JSON response of the token endpoint. -/
structure TokenResponse where
  accessToken : String := ""
  refreshToken : String := ""
  idToken : String := ""
  tokenType : String := ""
  expiresIn : Int := 0
  scope : String := ""
  error : String := ""
  errorDesc : String := ""
deriving Repr, DecidableEq

/-- `common.DeviceAuthResponse`: a decoded device-authorization response. -/
structure DeviceAuthResponse where
  deviceCode : String := ""
  userCode : String := ""
  verificationURI : String := ""
  verificationURIComplete : String := ""
  expiresIn : Int := 0
  interval : Int := 0
  error : String := ""
  errorDescription : String := ""
deriving Repr, DecidableEq

/-- `common.DefaultTokenExpiry`: 365 days in seconds. -/
def DefaultTokenExpiry : Int := 365 * 24 * 60 * 60

/-- `common.NormalizeExpiresIn`: a non-positive `expires_in` is replaced by
the long default lifetime. -/
def NormalizeExpiresIn (expiresIn : Int) : Int :=
  if expiresIn ≤ 0 then DefaultTokenExpiry else expiresIn

/-- `common.IsTokenValid` (`common/http.go`): nil or empty access token is
invalid; otherwise the token is valid while `now + 30s` is strictly before
`expiresAt` (`time.Now().Add(30 * time.Second).Before(tokens.ExpiresAt)`). -/
def IsTokenValid (now : Int) (tokens : Option TokenCache) : Bool :=
  match tokens with
  | none => false
  | some t => if t.accessToken = "" then false else decide (now + 30 < t.expiresAt)

/-! ## Device-flow poll loop (`common/device.go`) -/

/-- Result of `pollForDeviceTokenResponse`. Terminal errors keep the Go
error message shape they came from. -/
inductive PollResult where
  /-- a response with an empty `error` field: the token response is returned -/
  | success (resp : TokenResponse)
  /-- "device authorization timed out": the deadline passed -/
  | timeout
  /-- "device code expired, please try again" -/
  | expiredToken
  /-- "access denied by user" -/
  | accessDenied
  /-- "token error: ..." for any other non-empty error value -/
  | tokenError (err desc : String)
  /-- the scripted endpoint ran out of responses (models a network failure
  of `postFormJSON`, which the loop surfaces as a terminal error) -/
  | networkError
deriving Repr, DecidableEq

/-- The loop body of `pollForDeviceTokenResponse` (`common/device.go`
lines 53-96), run against a script of token-endpoint responses.  `now` is
the wall clock, which advances exactly by the sleeps the loop performs;
`interval` and `deadline` are in seconds.  Each iteration first checks the
deadline (`time.Now().After(deadline)`, strict), then reads the next
scripted response and dispatches on its `error` field. -/
def pollLoop (now interval deadline : Int) :
    List TokenResponse → PollResult × Nat
  | [] => if now > deadline then (.timeout, 0) else (.networkError, 1)
  | r :: rest =>
    if now > deadline then (.timeout, 0)
    else if r.error = "" then (.success r, 1)
    else if r.error = "authorization_pending" then
      let (res, n) := pollLoop (now + interval) interval deadline rest
      (res, n + 1)
    else if r.error = "slow_down" then
      let (res, n) := pollLoop (now + (interval + 5)) (interval + 5) deadline rest
      (res, n + 1)
    else if r.error = "expired_token" then (.expiredToken, 1)
    else if r.error = "access_denied" then (.accessDenied, 1)
    else (.tokenError r.error r.errorDesc, 1)

/-- `common.pollForDeviceTokenResponse`: interval defaults to 5 seconds when
the server returned 0; the deadline is `now` plus the authorization's
`expires_in`.  Also counts the poll requests issued. -/
def pollForDeviceTokenResponse (script : List TokenResponse) (now : Int)
    (da : DeviceAuthResponse) : PollResult × Nat :=
  let interval := if da.interval = 0 then 5 else da.interval
  let deadline := now + da.expiresIn
  pollLoop now interval deadline script

/-! ## PKCE material (`common/types.go` lines 372-393)

`crypto/rand` is modelled by passing the random bytes explicitly;
`base64.RawURLEncoding` (URL-safe alphabet, no padding) and SHA-256 are
implemented executably below. -/

/-- The URL-safe base64 alphabet of `base64.RawURLEncoding`. -/
def base64urlAlphabet : List Char :=
  ['A','B','C','D','E','F','G','H','I','J','K','L','M','N','O','P','Q','R',
   'S','T','U','V','W','X','Y','Z','a','b','c','d','e','f','g','h','i','j',
   'k','l','m','n','o','p','q','r','s','t','u','v','w','x','y','z','0','1',
   '2','3','4','5','6','7','8','9','-','_']

/-- Character for a 6-bit group. -/
def base64urlChar (n : Nat) : Char := base64urlAlphabet.getD n 'A'

/-- Unpadded URL-safe base64 of a byte list, three input bytes at a time. -/
def base64urlChars : List Nat → List Char
  | b1 :: b2 :: b3 :: rest =>
    base64urlChar (b1 / 4) ::
    base64urlChar ((b1 % 4) * 16 + b2 / 16) ::
    base64urlChar ((b2 % 16) * 4 + b3 / 64) ::
    base64urlChar (b3 % 64) :: base64urlChars rest
  | [b1, b2] =>
    [base64urlChar (b1 / 4), base64urlChar ((b1 % 4) * 16 + b2 / 16),
     base64urlChar ((b2 % 16) * 4)]
  | [b1] => [base64urlChar (b1 / 4), base64urlChar ((b1 % 4) * 16)]
  | [] => []

/-- `base64.RawURLEncoding.EncodeToString`. -/
def base64urlNoPad (bs : List Nat) : String := String.mk (base64urlChars bs)

/-- UTF-8 encoding of one character (Go `[]byte(string)` semantics). -/
def utf8Char (c : Char) : List Nat :=
  let n := c.toNat
  if n < 128 then [n]
  else if n < 2048 then [192 + n / 64, 128 + n % 64]
  else if n < 65536 then [224 + n / 4096, 128 + n / 64 % 64, 128 + n % 64]
  else [240 + n / 262144, 128 + n / 4096 % 64, 128 + n / 64 % 64, 128 + n % 64]

/-- The bytes of a Go string (UTF-8). -/
def utf8Bytes (s : String) : List Nat :=
  s.data.foldr (fun c acc => utf8Char c ++ acc) []

/-! SHA-256 over byte lists, 32-bit words as `Nat` reduced mod `2^32`. -/

/-- Right rotation of a 32-bit word. -/
def rotr32 (n x : Nat) : Nat := ((x >>> n) ||| (x <<< (32 - n))) % 4294967296

/-- The SHA-256 round constants. -/
def sha256K : List Nat :=
  [1116352408, 1899447441, 3049323471, 3921009573, 961987163,
   1508970993, 2453635748, 2870763221, 3624381080, 310598401,
   607225278, 1426881987, 1925078388, 2162078206, 2614888103,
   3248222580, 3835390401, 4022224774, 264347078, 604807628,
   770255983, 1249150122, 1555081692, 1996064986, 2554220882,
   2821834349, 2952996808, 3210313671, 3336571891, 3584528711,
   113926993, 338241895, 666307205, 773529912, 1294757372,
   1396182291, 1695183700, 1986661051, 2177026350, 2456956037,
   2730485921, 2820302411, 3259730800, 3345764771, 3516065817,
   3600352804, 4094571909, 275423344, 430227734, 506948616,
   659060556, 883997877, 958139571, 1322822218, 1537002063,
   1747873779, 1955562222, 2024104815, 2227730452, 2361852424,
   2428436474, 2756734187, 3204031479, 3329325298]

/-- The SHA-256 initial hash value. -/
def sha256H0 : List Nat :=
  [1779033703, 3144134277, 1013904242, 2773480762,
   1359893119, 2600822924, 528734635, 1541459225]

/-- `count` big-endian bytes of a value. -/
def bytesBE : Nat → Nat → List Nat
  | 0, _ => []
  | k + 1, v => bytesBE k (v / 256) ++ [v % 256]

/-- SHA-256 padding: append 0x80, zeros to 56 mod 64, then the 64-bit
big-endian bit length. -/
def sha256pad (msg : List Nat) : List Nat :=
  let L := msg.length
  let zeros := (56 + 64 - (L + 1) % 64) % 64
  msg ++ [128] ++ List.replicate zeros 0 ++ bytesBE 8 (8 * L)

/-- Big-endian 32-bit words of a byte list. -/
def toWords32 : List Nat → List Nat
  | a :: b :: c :: d :: rest =>
    (a * 16777216 + b * 65536 + c * 256 + d) :: toWords32 rest
  | _ => []

/-- Extend a 16-word block by `k` schedule words. -/
def extendWords (ws : List Nat) : Nat → List Nat
  | 0 => ws
  | k + 1 =>
    let i := ws.length
    let w15 := ws.getD (i - 15) 0
    let w2 := ws.getD (i - 2) 0
    let s0 := (rotr32 7 w15) ^^^ (rotr32 18 w15) ^^^ (w15 >>> 3)
    let s1 := (rotr32 17 w2) ^^^ (rotr32 19 w2) ^^^ (w2 >>> 10)
    let newW := (ws.getD (i - 16) 0 + s0 + ws.getD (i - 7) 0 + s1) % 4294967296
    extendWords (ws ++ [newW]) k

/-- The 64 compression rounds, state as an 8-tuple of words. -/
def sha256rounds :
    List Nat → List Nat →
    Nat × Nat × Nat × Nat × Nat × Nat × Nat × Nat →
    Nat × Nat × Nat × Nat × Nat × Nat × Nat × Nat
  | k :: ks, w :: ws, (a, b, c, d, e, f, g, h) =>
    let S1 := (rotr32 6 e) ^^^ (rotr32 11 e) ^^^ (rotr32 25 e)
    let ch := (e &&& f) ^^^ ((e ^^^ 4294967295) &&& g)
    let t1 := (h + S1 + ch + k + w) % 4294967296
    let S0 := (rotr32 2 a) ^^^ (rotr32 13 a) ^^^ (rotr32 22 a)
    let maj := (a &&& b) ^^^ (a &&& c) ^^^ (b &&& c)
    let t2 := (S0 + maj) % 4294967296
    sha256rounds ks ws
      ((t1 + t2) % 4294967296, a, b, c, (d + t1) % 4294967296, e, f, g)
  | _, _, st => st

/-- Compress one 16-word block into the hash state. -/
def sha256compress (h : List Nat) (block : List Nat) : List Nat :=
  let ws := extendWords block 48
  match h with
  | [h0, h1, h2, h3, h4, h5, h6, h7] =>
    let (a, b, c, d, e, f, g, hh) := sha256rounds sha256K ws
      (h0, h1, h2, h3, h4, h5, h6, h7)
    [(h0 + a) % 4294967296, (h1 + b) % 4294967296, (h2 + c) % 4294967296,
     (h3 + d) % 4294967296, (h4 + e) % 4294967296, (h5 + f) % 4294967296,
     (h6 + g) % 4294967296, (h7 + hh) % 4294967296]
  | _ => h

/-- Split a word list into 16-word blocks (the padded message is always a
multiple of 16 words; a ragged tail would become a short final block). -/
def chunk16 : List Nat → List (List Nat)
  | w0 :: w1 :: w2 :: w3 :: w4 :: w5 :: w6 :: w7 ::
    w8 :: w9 :: w10 :: w11 :: w12 :: w13 :: w14 :: w15 :: rest =>
    [w0, w1, w2, w3, w4, w5, w6, w7,
     w8, w9, w10, w11, w12, w13, w14, w15] :: chunk16 rest
  | [] => []
  | short => [short]

/-- Fold the hash state over all 16-word blocks. -/
def sha256blocks (h : List Nat) (ws : List Nat) : List Nat :=
  (chunk16 ws).foldl sha256compress h

/-- SHA-256 of a byte list, as 32 bytes. -/
def sha256 (msg : List Nat) : List Nat :=
  (sha256blocks sha256H0 (toWords32 (sha256pad msg))).foldr
    (fun w acc => bytesBE 4 w ++ acc) []

/-- `common.GenerateCodeVerifier`: the URL-safe base64 encoding of the 32
random bytes read from `crypto/rand`. -/
def GenerateCodeVerifier (randomBytes : List Nat) : String :=
  base64urlNoPad randomBytes

/-- `common.GenerateCodeChallenge`: BASE64URL(SHA-256(verifier bytes)). -/
def GenerateCodeChallenge (verifier : String) : String :=
  base64urlNoPad (sha256 (utf8Bytes verifier))

/-- `common.generateState`: the URL-safe base64 encoding of the 16 random
bytes read from `crypto/rand`. -/
def generateState (randomBytes : List Nat) : String :=
  base64urlNoPad randomBytes

/-! ## Token-endpoint grants (`common/token.go`)

Network I/O is an oracle from a form-encoded POST request to a decoded
`TokenResponse` (or a transport/parse error).  Every embedded operation
also returns the list of requests it issued, in order. -/

/-- A form-encoded POST issued by the flow engine. -/
structure HttpRequest where
  endpoint : String
  form : List (String × String)
deriving Repr, DecidableEq

/-- An oracle standing for the network: the token endpoint's response to
each request. -/
def TokenOracle : Type := HttpRequest → Except String TokenResponse

/-- The refresh-grant request built by `RefreshAccessToken`. -/
def refreshRequest (tokenEndpoint clientID clientSecret refreshToken : String) :
    HttpRequest :=
  { endpoint := tokenEndpoint,
    form := [("grant_type", "refresh_token"), ("client_id", clientID),
             ("refresh_token", refreshToken)] ++
      (if clientSecret ≠ "" then [("client_secret", clientSecret)] else []) }

/-- `common.RefreshAccessToken`: POST the refresh grant; a response with a
non-empty `error` field fails; otherwise build a new cache, keeping the old
refresh token when the server returned none. -/
def RefreshAccessToken (oracle : TokenOracle) (now : Int)
    (tokenEndpoint clientID clientSecret refreshToken : String) :
    Except String TokenCache × List HttpRequest :=
  let req := refreshRequest tokenEndpoint clientID clientSecret refreshToken
  match oracle req with
  | .error e => (.error ("failed to refresh token: " ++ e), [req])
  | .ok resp =>
    if resp.error ≠ "" then
      (.error ("token refresh failed: " ++ resp.error ++ " - " ++ resp.errorDesc),
       [req])
    else
      (.ok { accessToken := resp.accessToken,
             refreshToken :=
               if resp.refreshToken = "" then refreshToken else resp.refreshToken,
             tokenType := resp.tokenType,
             expiresAt := now + NormalizeExpiresIn resp.expiresIn }, [req])

/-- The authorization-code exchange request built by
`ExchangeCodeForTokens`; `code_verifier` is sent only when non-empty. -/
def exchangeRequest (tokenEndpoint clientID clientSecret code redirectURI
    codeVerifier : String) : HttpRequest :=
  { endpoint := tokenEndpoint,
    form := [("grant_type", "authorization_code"), ("client_id", clientID),
             ("code", code), ("redirect_uri", redirectURI)] ++
      (if clientSecret ≠ "" then [("client_secret", clientSecret)] else []) ++
      (if codeVerifier ≠ "" then [("code_verifier", codeVerifier)] else []) }

/-- `common.ExchangeCodeForTokens`.  Note the source builds the cache
without an ID token. -/
def ExchangeCodeForTokens (oracle : TokenOracle) (now : Int)
    (tokenEndpoint clientID clientSecret code redirectURI codeVerifier : String) :
    Except String TokenCache × List HttpRequest :=
  let req := exchangeRequest tokenEndpoint clientID clientSecret code
    redirectURI codeVerifier
  match oracle req with
  | .error e => (.error ("failed to exchange code: " ++ e), [req])
  | .ok resp =>
    if resp.error ≠ "" then
      (.error ("token exchange failed: " ++ resp.error ++ " - " ++ resp.errorDesc),
       [req])
    else
      (.ok { accessToken := resp.accessToken, refreshToken := resp.refreshToken,
             tokenType := resp.tokenType,
             expiresAt := now + NormalizeExpiresIn resp.expiresIn }, [req])

/-- The client-credentials grant request built by
`GetClientCredentialsToken`. -/
def clientCredentialsRequest (tokenEndpoint clientID clientSecret : String)
    (scopes : List String) : HttpRequest :=
  { endpoint := tokenEndpoint,
    form := [("grant_type", "client_credentials"), ("client_id", clientID),
             ("client_secret", clientSecret)] ++
      (if scopes ≠ [] then [("scope", String.intercalate " " scopes)] else []) }

/-- `common.GetClientCredentialsToken`. -/
def GetClientCredentialsToken (oracle : TokenOracle) (now : Int)
    (tokenEndpoint clientID clientSecret : String) (scopes : List String) :
    Except String TokenCache × List HttpRequest :=
  let req := clientCredentialsRequest tokenEndpoint clientID clientSecret scopes
  match oracle req with
  | .error e => (.error ("failed to get client credentials token: " ++ e), [req])
  | .ok resp =>
    if resp.error ≠ "" then
      (.error ("client credentials grant failed: " ++ resp.error ++ " - " ++
        resp.errorDesc), [req])
    else
      (.ok { accessToken := resp.accessToken, tokenType := resp.tokenType,
             expiresAt := now + NormalizeExpiresIn resp.expiresIn }, [req])

/-! ## Authorization-code flow (`common/types.go` lines 462-583) -/

/-- `common.AuthCodeFlowParams`. -/
structure AuthCodeFlowParams where
  authEndpoint : String
  clientID : String
  scopes : List String
  redirectURI : String
  redirectPort : Int
  usePKCE : Bool
deriving Repr, DecidableEq

/-- Hostname, port string and path of a redirect URI, following
`net/url.Parse` for the `scheme://host[:port][/path]` shapes the flow
accepts.  A string without a scheme separator parses with an empty host
(hence a non-local redirect). -/
def parseRedirectURI (s : String) : String × String × String :=
  match s.splitOn "://" with
  | _scheme :: rest1 :: restMore =>
    let rest := String.intercalate "://" (rest1 :: restMore)
    let hostport := String.mk (rest.data.takeWhile (fun c => c ≠ '/'))
    let path := String.mk (rest.data.drop hostport.length)
    match hostport.splitOn ":" with
    | [host, port] => (host, port, path)
    | _ => (hostport, "", path)
  | _ => ("", "", s)

/-- Query-parameter lookup on a received callback (`url.Values.Get`:
missing keys read as the empty string). -/
def getParam (params : List (String × String)) (key : String) : String :=
  match params.find? (fun p => p.1 = key) with
  | some p => p.2
  | none => ""

/-- Environment of one authorization-code flow run: the random bytes the
generators read, whether the browser opened, and what the local callback
server (or the manual code prompt, for non-local redirects) produced. -/
structure AuthCodeEnv where
  stateRandom : List Nat
  verifierRandom : List Nat
  browserOk : Bool := true
  callback : Except String (List (String × String)) := .error "authentication timed out"
  manualCode : Option String := none
deriving Repr

/-- The callback validation of `AuthenticateAuthCodeFlow` (`types.go`
lines 551-566): state must match exactly, any `error` query parameter is a
terminal failure, and the `code` parameter must be present. -/
def processCallback (state : String) (params : List (String × String)) :
    Except String String :=
  if getParam params "state" ≠ state then .error "state mismatch"
  else if getParam params "error" ≠ "" then
    .error ("authorization error: " ++ getParam params "error" ++ " - " ++
      getParam params "error_description")
  else if getParam params "code" = "" then .error "no authorization code received"
  else .ok (getParam params "code")

/-- `common.AuthenticateAuthCodeFlow`: generate state (and, when PKCE is
enabled, verifier and challenge), resolve the redirect URI, open the
browser, then either run the local callback server and validate its
parameters, or prompt for a manually pasted code.  Returns
`(code, codeVerifier, redirectURI)`. -/
def AuthenticateAuthCodeFlow (params : AuthCodeFlowParams) (env : AuthCodeEnv) :
    Except String (String × String × String) :=
  let state := generateState env.stateRandom
  let codeVerifier := if params.usePKCE then GenerateCodeVerifier env.verifierRandom else ""
  let resolved :
      Except String (String × Bool) :=
    if params.redirectURI = "" then
      .ok ("http://localhost:" ++ toString params.redirectPort ++ "/callback", true)
    else
      let (host, port, _path) := parseRedirectURI params.redirectURI
      let isLocal := host = "localhost" ∨ host = "127.0.0.1"
      if isLocal ∧ port ≠ "" ∧ port.toNat? = none then
        .error "invalid port in redirect_uri"
      else .ok (params.redirectURI, isLocal)
  match resolved with
  | .error e => .error e
  | .ok (redirectURI, isLocalhost) =>
    if ¬ env.browserOk then .error "failed to open browser"
    else if isLocalhost then
      match env.callback with
      | .error e => .error e
      | .ok ps =>
        match processCallback state ps with
        | .error e => .error e
        | .ok code => .ok (code, codeVerifier, redirectURI)
    else
      match env.manualCode with
      | none => .error "failed to read authorization code"
      | some line =>
        let code := line.trim
        if code = "" then .error "authorization code cannot be empty"
        else .ok (code, codeVerifier, redirectURI)

/-! ## Provider configuration maps (`internal/provider`, `part_008`) -/

/-- A value of a Go `map[string]any` configuration entry, restricted to the
types the providers read and `Metadata` writes (string, bool, int,
string slice).  JSON-decoded numbers (`float64` with integral value) are
folded into `intv`, which is what `GetIntOrDefault` converts them to. -/
inductive ConfigValue where
  | str (s : String)
  | boolv (b : Bool)
  | intv (n : Int)
  | strList (xs : List String)
  /-- any other decoded value (e.g. a nested object or null) — no getter
  accepts it, so it always reads as the default -/
  | other
deriving Repr, DecidableEq

/-- A configuration map, as an association list in insertion order. -/
abbrev ConfigMap := List (String × ConfigValue)

/-- First binding of a key. -/
def cfgGet (config : ConfigMap) (key : String) : Option ConfigValue :=
  (config.find? (fun p => p.1 = key)).map (fun p => p.2)

/-- `provider.GetStringOrDefault`: the value if present with string type,
else the default. -/
def GetStringOrDefault (config : ConfigMap) (key dflt : String) : String :=
  match cfgGet config key with
  | some (.str s) => s
  | _ => dflt

/-- `provider.GetBoolOrDefault`. -/
def GetBoolOrDefault (config : ConfigMap) (key : String) (dflt : Bool) : Bool :=
  match cfgGet config key with
  | some (.boolv b) => b
  | _ => dflt

/-- `provider.GetIntOrDefault` (accepts ints and integral JSON numbers). -/
def GetIntOrDefault (config : ConfigMap) (key : String) (dflt : Int) : Int :=
  match cfgGet config key with
  | some (.intv n) => n
  | _ => dflt

/-- `provider.GetStringSliceOrDefault`. -/
def GetStringSliceOrDefault (config : ConfigMap) (key : String)
    (dflt : List String) : List String :=
  match cfgGet config key with
  | some (.strList xs) => xs
  | _ => dflt

/-- `common.GetScopes`: scopes from config, nil default. -/
def GetScopes (config : ConfigMap) : List String :=
  GetStringSliceOrDefault config "scopes" []

/-- `common.GetScopesOrDefault`: defaults to `["openid"]` when empty. -/
def GetScopesOrDefault (config : ConfigMap) : List String :=
  let scopes := GetScopes config
  if scopes = [] then ["openid"] else scopes

/-- `common.DiscoveryDocument` (the fields `Init` consumes). -/
structure DiscoveryDocument where
  issuer : String := ""
  authorizationEndpoint : String := ""
  tokenEndpoint : String := ""
  deviceEndpoint : String := ""
deriving Repr, DecidableEq

/-- The OIDC discovery collaborator: `common.Discover` as an oracle from an
issuer to its discovery document (or a terminal configuration error). -/
def DiscoveryOracle : Type := String → Except String DiscoveryDocument

/-! ## The universal `oauth2` provider (`part_002`) -/

/-- Flow selector constants. -/
def FlowDevice : String := "device"

/-- Flow selector: authorization code with PKCE. -/
def FlowAuthCode : String := "auth-code"

/-- Flow selector: client credentials. -/
def FlowClientCredentials : String := "client-credentials"

/-- The configuration fields of the universal `oauth2` provider, exactly
the struct fields of `oauth2.Provider` except the token cache (which the
daemon never persists and which is threaded separately). -/
structure OAuth2Config where
  issuer : String
  clientID : String
  clientSecret : String
  scopes : List String
  tokenEndpoint : String
  authEndpoint : String
  deviceEndpoint : String
  redirectURI : String
  redirectPort : Int
  usePKCE : Bool
  flow : String
  template : String
deriving Repr, DecidableEq

/-- The discovery step of `Init`: use discovered endpoints only where none
was explicitly set (and, for the interactive endpoints, only for the
selected flow). -/
def oauth2FillEndpoints (flow tokenEndpoint0 authEndpoint0 deviceEndpoint0 : String)
    (doc : DiscoveryDocument) : String × String × String :=
  (if tokenEndpoint0 = "" then doc.tokenEndpoint else tokenEndpoint0,
   if flow = FlowAuthCode ∧ authEndpoint0 = "" then doc.authorizationEndpoint
   else authEndpoint0,
   if flow = FlowDevice ∧ deviceEndpoint0 = "" ∧ doc.deviceEndpoint ≠ "" then
     doc.deviceEndpoint
   else deviceEndpoint0)

/-- The final validations of `Init` and the construction of the provider. -/
def oauth2Finish (issuer clientID clientSecret : String) (scopes : List String)
    (redirectURI : String) (redirectPort : Int) (usePKCE : Bool)
    (flow template tokenEndpoint authEndpoint deviceEndpoint : String) :
    Except String OAuth2Config :=
  if tokenEndpoint = "" then
    .error "token_endpoint is required (or provide issuer for auto-discovery)"
  else if flow = FlowDevice ∧ deviceEndpoint = "" then
    .error "device flow requires device_endpoint (or issuer for auto-discovery)"
  else if flow = FlowAuthCode ∧ authEndpoint = "" then
    .error "auth-code flow requires auth_endpoint (or issuer for auto-discovery)"
  else if flow = FlowClientCredentials ∧ clientSecret = "" then
    .error "client-credentials flow requires client_secret"
  else
    .ok { issuer, clientID, clientSecret, scopes, tokenEndpoint,
          authEndpoint, deviceEndpoint, redirectURI, redirectPort,
          usePKCE, flow, template }

/-- `oauth2.Provider.Init` (`part_002` lines 140-224): read all fields with
their defaults, validate the flow selection, resolve scopes, perform OIDC
discovery when an issuer is configured (filling only endpoints not
explicitly set, per flow), then validate flow-specific requirements. -/
def oauth2Init (config : ConfigMap) (disc : DiscoveryOracle) :
    Except String OAuth2Config :=
  let issuer := GetStringOrDefault config "issuer" ""
  let clientID := GetStringOrDefault config "client_id" ""
  let clientSecret := GetStringOrDefault config "client_secret" ""
  let tokenEndpoint0 := GetStringOrDefault config "token_endpoint" ""
  let authEndpoint0 := GetStringOrDefault config "auth_endpoint" ""
  let deviceEndpoint0 := GetStringOrDefault config "device_endpoint" ""
  let redirectPort := GetIntOrDefault config "redirect_port" 8085
  let redirectURI := GetStringOrDefault config "redirect_uri" ""
  let usePKCE := GetBoolOrDefault config "use_pkce" true
  let flow := GetStringOrDefault config "flow" ""
  let template := GetStringOrDefault config "template" ""
  if flow = "" then
    .error "flow is required: must be one of: device, auth-code, client-credentials"
  else if ¬ (flow = FlowDevice ∨ flow = FlowAuthCode ∨ flow = FlowClientCredentials) then
    .error ("invalid flow " ++ flow ++ ": must be one of: device, auth-code, client-credentials")
  else
    let scopes := if issuer ≠ "" then GetScopesOrDefault config else GetScopes config
    if issuer ≠ "" then
      match disc issuer with
      | .error e => .error ("failed to discover OIDC endpoints: " ++ e)
      | .ok doc =>
        match oauth2FillEndpoints flow tokenEndpoint0 authEndpoint0 deviceEndpoint0 doc with
        | (tokenEndpoint, authEndpoint, deviceEndpoint) =>
          oauth2Finish issuer clientID clientSecret scopes redirectURI
            redirectPort usePKCE flow template tokenEndpoint authEndpoint
            deviceEndpoint
    else
      oauth2Finish issuer clientID clientSecret scopes redirectURI
        redirectPort usePKCE flow template tokenEndpoint0 authEndpoint0
        deviceEndpoint0

/-- `oauth2.Provider.Metadata` (`part_002` lines 353-393): `client_id`
always; every other field only when non-zero; `use_pkce` only when true. -/
def oauth2Metadata (p : OAuth2Config) : ConfigMap :=
  [("client_id", .str p.clientID)] ++
  (if p.issuer ≠ "" then [("issuer", .str p.issuer)] else []) ++
  (if p.clientSecret ≠ "" then [("client_secret", .str p.clientSecret)] else []) ++
  (if p.scopes ≠ [] then [("scopes", .strList p.scopes)] else []) ++
  (if p.tokenEndpoint ≠ "" then [("token_endpoint", .str p.tokenEndpoint)] else []) ++
  (if p.authEndpoint ≠ "" then [("auth_endpoint", .str p.authEndpoint)] else []) ++
  (if p.deviceEndpoint ≠ "" then [("device_endpoint", .str p.deviceEndpoint)] else []) ++
  (if p.redirectURI ≠ "" then [("redirect_uri", .str p.redirectURI)] else []) ++
  (if p.redirectPort ≠ 0 then [("redirect_port", .intv p.redirectPort)] else []) ++
  (if p.usePKCE then [("use_pkce", .boolv true)] else []) ++
  (if p.flow ≠ "" then [("flow", .str p.flow)] else []) ++
  (if p.template ≠ "" then [("template", .str p.template)] else [])

/-! ## Device flow (`common/device.go`) and provider execution -/

/-- The request `requestDeviceAuthorization` posts to the
device-authorization endpoint. -/
def deviceAuthRequest (deviceEndpoint clientID : String)
    (scopes : List String) : HttpRequest :=
  { endpoint := deviceEndpoint,
    form := [("client_id", clientID)] ++
      (if scopes ≠ [] then [("scope", String.intercalate " " scopes)] else []) }

/-- The request each poll iteration posts to the token endpoint. -/
def devicePollRequest (tokenEndpoint clientID clientSecret deviceCode : String) :
    HttpRequest :=
  { endpoint := tokenEndpoint,
    form := [("grant_type", "urn:ietf:params:oauth:grant-type:device_code"),
             ("device_code", deviceCode), ("client_id", clientID)] ++
      (if clientSecret ≠ "" then [("client_secret", clientSecret)] else []) }

/-- Environment of one device-flow run: the device-authorization endpoint
oracle and the scripted token-endpoint responses consumed by the poll
loop. -/
structure DeviceFlowEnv where
  deviceOracle : HttpRequest → Except String DeviceAuthResponse
  pollScript : List TokenResponse

/-- `common.AuthenticateDeviceFlow`: request the device authorization,
fail on its error field, then run the poll loop.  Returns the successful
token response or the loop's terminal error, plus all requests issued. -/
def AuthenticateDeviceFlow (env : DeviceFlowEnv) (now : Int)
    (deviceEndpoint tokenEndpoint clientID clientSecret : String)
    (scopes : List String) : Except String TokenResponse × List HttpRequest :=
  let req := deviceAuthRequest deviceEndpoint clientID scopes
  match env.deviceOracle req with
  | .error e => (.error ("failed to request device authorization: " ++ e), [req])
  | .ok da =>
    if da.error ≠ "" then
      (.error ("device authorization failed: " ++ da.error ++ " - " ++
        da.errorDescription), [req])
    else
      let pollReq := devicePollRequest tokenEndpoint clientID clientSecret
        da.deviceCode
      let (res, n) := pollForDeviceTokenResponse env.pollScript now da
      let reqs := req :: List.replicate n pollReq
      match res with
      | .success resp => (.ok resp, reqs)
      | .timeout => (.error "device authorization timed out", reqs)
      | .expiredToken => (.error "device code expired, please try again", reqs)
      | .accessDenied => (.error "access denied by user", reqs)
      | .tokenError e d => (.error ("token error: " ++ e ++ " - " ++ d), reqs)
      | .networkError => (.error "failed to poll token endpoint", reqs)

/-- The sentinel errors of `internal/provider/provider.go`, plus ordinary
message errors.  `authRequired` is `ErrAuthenticationRequired` and
`deviceFlowRequiresLogin` is `ErrDeviceFlowRequiresLogin`. -/
inductive GoErr where
  | authRequired
  | deviceFlowRequiresLogin
  | msg (s : String)
deriving Repr, DecidableEq

/-- The authentication-required error class of the spec taxonomy: the
distinguished errors meaning no retry will help without user action
(`error_type` values `auth_required` and `device_flow_required`). -/
def isAuthRequiredClass : GoErr → Bool
  | .authRequired => true
  | .deviceFlowRequiresLogin => true
  | .msg _ => false

/-- Everything one provider call can consume from the outside world. -/
structure ProviderEnv where
  now : Int
  oracle : TokenOracle
  authEnv : AuthCodeEnv
  deviceEnv : DeviceFlowEnv
  verifyIDToken : String → Except String Unit := fun _ => .ok ()

/-- `oauth2.Provider.doAuthorizationCodeFlow` (`part_002` lines 313-340):
run the authorization-code flow, exchange the code, verify the ID token
when an issuer is configured and the response carried one. -/
def doAuthorizationCodeFlow (cfg : OAuth2Config) (env : ProviderEnv) :
    Except String TokenCache × List HttpRequest :=
  match AuthenticateAuthCodeFlow
      { authEndpoint := cfg.authEndpoint, clientID := cfg.clientID,
        scopes := cfg.scopes, redirectURI := cfg.redirectURI,
        redirectPort := cfg.redirectPort, usePKCE := cfg.usePKCE }
      env.authEnv with
  | .error e => (.error e, [])
  | .ok (code, codeVerifier, redirectURI) =>
    match ExchangeCodeForTokens env.oracle env.now cfg.tokenEndpoint
        cfg.clientID cfg.clientSecret code redirectURI codeVerifier with
    | (.error e, reqs) => (.error e, reqs)
    | (.ok tokens, reqs) =>
      if cfg.issuer ≠ "" ∧ tokens.idToken ≠ "" then
        match env.verifyIDToken tokens.idToken with
        | .error e => (.error ("ID token validation failed: " ++ e), reqs)
        | .ok _ => (.ok tokens, reqs)
      else (.ok tokens, reqs)

/-- The flow switch at the end of `oauth2.Provider.Get` (`part_002` lines
242-266), reached when no valid cached token exists and refresh did not
apply or failed. -/
def ogetFlow (cfg : OAuth2Config) (tokens : Option TokenCache)
    (env : ProviderEnv) :
    Except GoErr String × Option TokenCache × List HttpRequest :=
  if cfg.flow = FlowClientCredentials then
    match GetClientCredentialsToken env.oracle env.now cfg.tokenEndpoint
        cfg.clientID cfg.clientSecret cfg.scopes with
    | (.ok t, reqs) => (.ok t.accessToken, some t, reqs)
    | (.error e, reqs) =>
      (.error (.msg ("client credentials grant failed: " ++ e)), tokens, reqs)
  else if cfg.flow = FlowAuthCode then
    match doAuthorizationCodeFlow cfg env with
    | (.ok t, reqs) => (.ok t.accessToken, some t, reqs)
    | (.error e, reqs) =>
      (.error (.msg ("authorization code flow failed: " ++ e)), tokens, reqs)
  else if cfg.flow = FlowDevice then
    (.error .deviceFlowRequiresLogin, tokens, [])
  else (.error (.msg ("unsupported flow: " ++ cfg.flow)), tokens, [])

/-- `oauth2.Provider.Get` (`part_002` lines 226-267): serve a valid cached
token; otherwise try a refresh when a refresh token is held (failure falls
through silently); otherwise run the configured flow — except the device
flow, which is never run implicitly and yields
`ErrDeviceFlowRequiresLogin`.  Returns the result, the provider's token
cache afterwards, and the requests issued. -/
def oget (cfg : OAuth2Config) (tokens : Option TokenCache) (env : ProviderEnv) :
    Except GoErr String × Option TokenCache × List HttpRequest :=
  match tokens with
  | some t =>
    if IsTokenValid env.now (some t) then (.ok t.accessToken, some t, [])
    else if t.refreshToken ≠ "" then
      match RefreshAccessToken env.oracle env.now cfg.tokenEndpoint
          cfg.clientID cfg.clientSecret t.refreshToken with
      | (.ok nt, reqs) => (.ok nt.accessToken, some nt, reqs)
      | (.error _, reqs) =>
        let (res, tk, reqs2) := ogetFlow cfg (some t) env
        (res, tk, reqs ++ reqs2)
    else ogetFlow cfg (some t) env
  | none => ogetFlow cfg none env

/-- `oauth2.Provider.Login` (`part_002` lines 269-310): the device flow is
run here (explicitly); auth-code delegates to `doAuthorizationCodeFlow`;
client-credentials refuses interactive login.  A successful device flow
converts the token response into a cache with a normalized lifetime. -/
def ologin (cfg : OAuth2Config) (tokens : Option TokenCache) (env : ProviderEnv) :
    Except String Unit × Option TokenCache × List HttpRequest :=
  if cfg.flow = FlowDevice then
    match AuthenticateDeviceFlow env.deviceEnv env.now cfg.deviceEndpoint
        cfg.tokenEndpoint cfg.clientID cfg.clientSecret cfg.scopes with
    | (.error e, reqs) => (.error e, tokens, reqs)
    | (.ok resp, reqs) =>
      let newTokens : TokenCache :=
        { accessToken := resp.accessToken, refreshToken := resp.refreshToken,
          tokenType := resp.tokenType, idToken := resp.idToken,
          expiresAt := env.now + NormalizeExpiresIn resp.expiresIn }
      if cfg.issuer ≠ "" ∧ newTokens.idToken ≠ "" then
        match env.verifyIDToken newTokens.idToken with
        | .error e =>
          (.error ("ID token validation failed: " ++ e), tokens, reqs)
        | .ok _ => (.ok (), some newTokens, reqs)
      else (.ok (), some newTokens, reqs)
  else if cfg.flow = FlowAuthCode then
    match doAuthorizationCodeFlow cfg env with
    | (.ok t, reqs) => (.ok (), some t, reqs)
    | (.error e, reqs) => (.error e, tokens, reqs)
  else if cfg.flow = FlowClientCredentials then
    (.error "client-credentials flow does not support interactive login", tokens, [])
  else (.error ("unsupported flow: " ++ cfg.flow), tokens, [])

/-- `oauth2.Provider.SetTokens` (`part_002` lines 395-401): replace the
cache wholesale, normalizing the lifetime. -/
def oauth2SetTokens (now : Int) (accessToken refreshToken : String)
    (expiresIn : Int) : TokenCache :=
  { accessToken, refreshToken,
    expiresAt := now + NormalizeExpiresIn expiresIn }

/-! ## The `oauth2-device` provider (`internal/provider/oauth2/device.go`) -/

/-- Configuration fields of `oauth2.DeviceProvider`. -/
structure DeviceConfig where
  clientID : String
  clientSecret : String
  scopes : List String
  tokenEndpoint : String
  deviceEndpoint : String
deriving Repr, DecidableEq

/-- `DeviceProvider.Init`: reads every field with an empty default and
never fails. -/
def deviceInit (config : ConfigMap) : DeviceConfig :=
  { clientID := GetStringOrDefault config "client_id" "",
    clientSecret := GetStringOrDefault config "client_secret" "",
    scopes := GetScopes config,
    tokenEndpoint := GetStringOrDefault config "token_endpoint" "",
    deviceEndpoint := GetStringOrDefault config "device_endpoint" "" }

/-- `DeviceProvider.Metadata`. -/
def deviceMetadata (p : DeviceConfig) : ConfigMap :=
  [("client_id", .str p.clientID), ("token_endpoint", .str p.tokenEndpoint),
   ("device_endpoint", .str p.deviceEndpoint)] ++
  (if p.clientSecret ≠ "" then [("client_secret", .str p.clientSecret)] else []) ++
  (if p.scopes ≠ [] then [("scopes", .strList p.scopes)] else [])

/-- `DeviceProvider.Get` (`device.go` lines 78-93): serve a valid cached
token; otherwise try refresh when a refresh token is held; otherwise
return `ErrAuthenticationRequired` without any network call — the device
flow is never started here. -/
def dget (p : DeviceConfig) (tokens : Option TokenCache) (env : ProviderEnv) :
    Except GoErr String × Option TokenCache × List HttpRequest :=
  match tokens with
  | some t =>
    if IsTokenValid env.now (some t) then (.ok t.accessToken, some t, [])
    else if t.refreshToken ≠ "" then
      match RefreshAccessToken env.oracle env.now p.tokenEndpoint
          p.clientID p.clientSecret t.refreshToken with
      | (.ok nt, reqs) => (.ok nt.accessToken, some nt, reqs)
      | (.error _, reqs) => (.error .authRequired, some t, reqs)
    else (.error .authRequired, some t, [])
  | none => (.error .authRequired, none, [])

/-- `DeviceProvider.Login` via `authenticate` (`device.go` lines 95-153):
run the device flow and convert the token response into a cache with a
normalized lifetime (the source drops the ID token here). -/
def dlogin (p : DeviceConfig) (tokens : Option TokenCache) (env : ProviderEnv) :
    Except String Unit × Option TokenCache × List HttpRequest :=
  match AuthenticateDeviceFlow env.deviceEnv env.now p.deviceEndpoint
      p.tokenEndpoint p.clientID p.clientSecret p.scopes with
  | (.error e, reqs) => (.error e, tokens, reqs)
  | (.ok resp, reqs) =>
    (.ok (), some { accessToken := resp.accessToken,
                    refreshToken := resp.refreshToken,
                    tokenType := resp.tokenType,
                    expiresAt := env.now + NormalizeExpiresIn resp.expiresIn },
     reqs)

/-! ## The `command` provider (`internal/provider/command/command.go`) -/

/-- Configuration fields of `command.CommandProvider`. -/
structure CommandConfig where
  command : String
  format : String
  envVar : String
  filePath : String
  fileMode : String
  loginCommand : String
deriving Repr, DecidableEq

/-- `CommandProvider.Init`: the source reads
`config["command"].(string)` with an unchecked type assertion — a missing
or non-string value panics, modelled as an error — and every other field
through `GetStringOrDefault`. -/
def commandInit (config : ConfigMap) : Except String CommandConfig :=
  match cfgGet config "command" with
  | some (.str cmd) =>
    .ok { command := cmd,
          format := GetStringOrDefault config "format" "raw",
          envVar := GetStringOrDefault config "env_var" "",
          filePath := GetStringOrDefault config "file_path" "",
          fileMode := GetStringOrDefault config "file_mode" "0600",
          loginCommand := GetStringOrDefault config "login_command" "" }
  | _ => .error "panic: interface conversion: command is not a string"

/-- `CommandProvider.Metadata`: `command` and `format` always; other
fields only when non-empty; `file_mode` only when it differs from the
default `0600`. -/
def commandMetadata (p : CommandConfig) : ConfigMap :=
  [("command", .str p.command), ("format", .str p.format)] ++
  (if p.envVar ≠ "" then [("env_var", .str p.envVar)] else []) ++
  (if p.filePath ≠ "" then [("file_path", .str p.filePath)] else []) ++
  (if p.fileMode ≠ "" ∧ p.fileMode ≠ "0600" then
    [("file_mode", .str p.fileMode)] else []) ++
  (if p.loginCommand ≠ "" then [("login_command", .str p.loginCommand)] else [])

/-- Go `strings.TrimRight(s, "\r\n")`. -/
def trimRightNewlines (s : String) : String :=
  String.mk ((s.data.reverse.dropWhile (fun c => c = '\n' ∨ c = '\r')).reverse)

/-- `CommandProvider.Get`: run the configured command through the
subprocess collaborator (an oracle from command text to stdout or an
execution error) and trim trailing newlines. -/
def commandGet (p : CommandConfig) (run : String → Except String String) :
    Except GoErr String :=
  match run p.command with
  | .ok out => .ok (trimRightNewlines out)
  | .error e => .error (.msg e)

/-! ## Wire protocol (`internal/protocol`, `part_015`) and JSON payloads -/

/-- A decoded JSON value, as produced by `json.Unmarshal` into
`interface{}` for the request payload. -/
inductive JVal where
  | null
  | jbool (b : Bool)
  | jnum (n : Int)
  | jstr (s : String)
  | jarr (xs : List JVal)
  | jobj (fields : List (String × JVal))

/-- First binding of a key in a JSON object. -/
def jGet (fields : List (String × JVal)) (key : String) : Option JVal :=
  (fields.find? (fun p => p.1 = key)).map (fun p => p.2)

/-- Unmarshal a JSON object field into a Go string: missing or null keeps
the zero value, a string is taken, any other type is a decode error. -/
def jStrField (fields : List (String × JVal)) (key : String) :
    Except String String :=
  match jGet fields key with
  | none => .ok ""
  | some .null => .ok ""
  | some (.jstr s) => .ok s
  | some _ => .error ("cannot unmarshal field " ++ key ++ " into string")

/-- Unmarshal a JSON object field into a Go int. -/
def jIntField (fields : List (String × JVal)) (key : String) :
    Except String Int :=
  match jGet fields key with
  | none => .ok 0
  | some .null => .ok 0
  | some (.jnum n) => .ok n
  | some _ => .error ("cannot unmarshal field " ++ key ++ " into int")

/-- Unmarshal a JSON object field into a Go bool. -/
def jBoolField (fields : List (String × JVal)) (key : String) :
    Except String Bool :=
  match jGet fields key with
  | none => .ok false
  | some .null => .ok false
  | some (.jbool b) => .ok b
  | some _ => .error ("cannot unmarshal field " ++ key ++ " into bool")

/-- One decoded `map[string]any` value as the provider config getters see
it: strings, bools, integral numbers, and arrays keep exactly the strings
they contain (the Go `GetStringSliceOrDefault` filter); anything else is a
value no getter accepts. -/
def jToConfigValue : JVal → ConfigValue
  | .jstr s => .str s
  | .jbool b => .boolv b
  | .jnum n => .intv n
  | .jarr xs => .strList (xs.filterMap (fun v => match v with
      | .jstr s => some s
      | _ => none))
  | _ => .other

/-- Unmarshal a JSON object field into a `map[string]any` config map. -/
def jMapField (fields : List (String × JVal)) (key : String) :
    Except String ConfigMap :=
  match jGet fields key with
  | none => .ok []
  | some .null => .ok []
  | some (.jobj fs) => .ok (fs.map (fun p => (p.1, jToConfigValue p.2)))
  | some _ => .error ("cannot unmarshal field " ++ key ++ " into map")

/-- `protocol.AddPayload`. -/
structure AddPayload where
  name : String
  ptype : String
  metadata : ConfigMap
  force : Bool
deriving Repr, DecidableEq

/-- `protocol.GetPayload` (also the shape of `DeletePayload`). -/
structure NamePayload where
  name : String
deriving Repr, DecidableEq

/-- `protocol.SetTokensPayload`. -/
structure SetTokensPayload where
  name : String
  accessToken : String
  refreshToken : String
  expiresIn : Int
deriving Repr, DecidableEq

/-- The handlers re-marshal the decoded payload and unmarshal it into the
typed payload struct; this is the composite for `AddPayload`. -/
def decodeAddPayload : JVal → Except String AddPayload
  | .null => .ok { name := "", ptype := "", metadata := [], force := false }
  | .jobj fs =>
    match jStrField fs "name", jStrField fs "type",
        jMapField fs "metadata", jBoolField fs "force" with
    | .ok name, .ok ptype, .ok metadata, .ok force =>
      .ok { name, ptype, metadata, force }
    | .error e, _, _, _ => .error e
    | _, .error e, _, _ => .error e
    | _, _, .error e, _ => .error e
    | _, _, _, .error e => .error e
  | _ => .error "cannot unmarshal payload into struct"

/-- Decode for `GetPayload` / `DeletePayload`. -/
def decodeNamePayload : JVal → Except String NamePayload
  | .null => .ok { name := "" }
  | .jobj fs =>
    match jStrField fs "name" with
    | .ok name => .ok { name }
    | .error e => .error e
  | _ => .error "cannot unmarshal payload into struct"

/-- Decode for `SetTokensPayload`. -/
def decodeSetTokensPayload : JVal → Except String SetTokensPayload
  | .null => .ok { name := "", accessToken := "", refreshToken := "", expiresIn := 0 }
  | .jobj fs =>
    match jStrField fs "name", jStrField fs "access_token",
        jStrField fs "refresh_token", jIntField fs "expires_in" with
    | .ok name, .ok accessToken, .ok refreshToken, .ok expiresIn =>
      .ok { name, accessToken, refreshToken, expiresIn }
    | .error e, _, _, _ => .error e
    | _, .error e, _, _ => .error e
    | _, _, .error e, _ => .error e
    | _, _, _, .error e => .error e
  | _ => .error "cannot unmarshal payload into struct"

/-! ## Providers as stored by the daemon -/

/-- A live provider instance: the variant tag together with its
configuration and (for OAuth2 variants) its in-memory token cache.  The
registered variants modelled here are `command`, `oauth2` and
`oauth2-device`. -/
inductive Prov where
  | command (c : CommandConfig)
  | oauth2 (cfg : OAuth2Config) (tokens : Option TokenCache)
  | oauth2Device (cfg : DeviceConfig) (tokens : Option TokenCache)
deriving Repr, DecidableEq

/-- `Provider.Type`. -/
def provType : Prov → String
  | .command _ => "command"
  | .oauth2 _ _ => "oauth2"
  | .oauth2Device _ _ => "oauth2-device"

/-- `Provider.Metadata` dispatch. -/
def provMetadata : Prov → ConfigMap
  | .command c => commandMetadata c
  | .oauth2 cfg _ => oauth2Metadata cfg
  | .oauth2Device cfg _ => deviceMetadata cfg

/-- Whether the registry knows a type (`provider.New` succeeds). -/
def registryHas (ptype : String) : Bool :=
  ptype = "command" ∨ ptype = "oauth2" ∨ ptype = "oauth2-device"

/-- `provider.New` followed by `Init(config)`: a fresh instance of the
named type, initialized; the token cache of a fresh instance is empty. -/
def provInit (ptype : String) (config : ConfigMap) (disc : DiscoveryOracle) :
    Except String Prov :=
  if ptype = "command" then
    match commandInit config with
    | .ok c => .ok (.command c)
    | .error e => .error e
  else if ptype = "oauth2" then
    match oauth2Init config disc with
    | .ok cfg => .ok (.oauth2 cfg none)
    | .error e => .error e
  else if ptype = "oauth2-device" then .ok (.oauth2Device (deviceInit config) none)
  else .error ("unknown provider type: " ++ ptype)

/-- The token cache a provider currently holds. -/
def tokensOf : Prov → Option TokenCache
  | .command _ => none
  | .oauth2 _ t => t
  | .oauth2Device _ t => t

/-- The `provider.TokenCacheProvider` capability check: the OAuth2
variants implement `SetTokens`, the command provider does not. -/
def supportsTokenCache : Prov → Bool
  | .command _ => false
  | .oauth2 _ _ => true
  | .oauth2Device _ _ => true

/-- `SetTokens` dispatch: replace the token cache wholesale. -/
def provSetTokens (p : Prov) (now : Int) (accessToken refreshToken : String)
    (expiresIn : Int) : Prov :=
  match p with
  | .command c => .command c
  | .oauth2 cfg _ => .oauth2 cfg (some (oauth2SetTokens now accessToken refreshToken expiresIn))
  | .oauth2Device cfg _ =>
    .oauth2Device cfg (some (oauth2SetTokens now accessToken refreshToken expiresIn))

/-- `Provider.Get` dispatch, returning the (possibly token-mutated)
provider alongside the result. -/
def provGet (p : Prov) (env : ProviderEnv)
    (run : String → Except String String) : Except GoErr String × Prov :=
  match p with
  | .command c => (commandGet c run, .command c)
  | .oauth2 cfg t =>
    match oget cfg t env with
    | (r, t2, _) => (r, .oauth2 cfg t2)
  | .oauth2Device cfg t =>
    match dget cfg t env with
    | (r, t2, _) => (r, .oauth2Device cfg t2)

/-! ## Daemon State (`internal/daemon/state.go`) and persistence -/

/-- `provider.StoredProvider`: the persisted `(name, type, data)` triple. -/
structure StoredProvider where
  name : String
  ptype : String
  data : ConfigMap
deriving Repr, DecidableEq

/-- The daemon state: the in-memory provider map and the on-disk store,
both as association lists keyed by provider name. -/
structure DaemonState where
  providers : List (String × Prov)
  disk : List (String × StoredProvider)
deriving Repr, DecidableEq

/-- Replace the first binding of a key, or append a new one (Go map
assignment on an association-list representation). -/
def mapUpdate {α : Type} : List (String × α) → String → α → List (String × α)
  | [], k, v => [(k, v)]
  | p :: rest, k, v => if p.1 = k then (k, v) :: rest else p :: mapUpdate rest k v

/-- `provider.Exists` against the on-disk store. -/
def diskExists (disk : List (String × StoredProvider)) (name : String) : Bool :=
  (disk.find? (fun p => p.1 = name)).isSome

/-- `provider.Load`: read the stored record and rebuild a fresh provider
via the registry (`New` + `Init`); missing files are
"provider not found". -/
def diskLoad (disk : List (String × StoredProvider)) (name : String)
    (disc : DiscoveryOracle) : Except String Prov :=
  match disk.find? (fun p => p.1 = name) with
  | some p => provInit p.2.ptype p.2.data disc
  | none => .error ("provider not found: " ++ name)

/-- `State.Get` (`state.go` lines 76-91): look the name up in memory under
a read lock; on a miss, fall back to loading from disk.  The state is not
modified in either case — in particular the disk-loaded provider is
returned without being inserted into the map. -/
def stateGet (s : DaemonState) (name : String) (disc : DiscoveryOracle) :
    Except String Prov :=
  match s.providers.find? (fun p => p.1 = name) with
  | some p => .ok p.2
  | none => diskLoad s.disk name disc

/-- `State.Delete` (`state.go` lines 93-106): delete from disk first
(missing file is "provider not found"), then remove from memory. -/
def stateDelete (s : DaemonState) (name : String) :
    Except String DaemonState :=
  if diskExists s.disk name then
    .ok { providers := s.providers.filter (fun p => ¬ p.1 = name),
          disk := s.disk.filter (fun p => ¬ p.1 = name) }
  else .error ("provider not found: " ++ name)

/-- Ordered effects of one `add` operation. -/
inductive AddEvent where
  | diskWrite (name : String)
  | memPublish (name : String)
deriving Repr, DecidableEq

/-- Modelled from the spec: the force-aware `State.Add` that the `add`
handler calls (`part_013` line 72 passes `addPayload.Force` as a third
argument) is not among the provided source files — only its caller and
the two-argument variant are.  Per the spec it persists, "failing if the
name already exists unless a `force` flag is set, then publishes into the
in-memory map — disk write happens before memory update".  The returned
event list records that order. -/
def stateAddSpec (s : DaemonState) (name : String) (p : Prov) (force : Bool) :
    Except String DaemonState × List AddEvent :=
  if diskExists s.disk name ∧ ¬ force then
    (.error ("provider " ++ name ++ " already exists"), [])
  else
    (.ok { providers := mapUpdate s.providers name p,
           disk := mapUpdate s.disk name
             { name, ptype := provType p, data := provMetadata p } },
     [.diskWrite name, .memPublish name])

/-! ## Daemon handlers (`part_013`) and dispatch (`daemon.go`) -/

/-- Response payload of the `get` action. -/
inductive RespPayload where
  | getP (output : String) (metadata : ConfigMap)
deriving Repr, DecidableEq

/-- `protocol.Response`. -/
structure Response where
  status : String
  error : String := ""
  errorType : String := ""
  payload : Option RespPayload := none
deriving Repr, DecidableEq

/-- An error response. -/
def errResp (e : String) : Response := { status := "error", error := e }

/-- The bare ok response. -/
def okResp : Response := { status := "ok" }

/-- The message of a provider error, as the handler formats it. -/
def goErrMsg : GoErr → String
  | .authRequired => "authentication required"
  | .deviceFlowRequiresLogin =>
    "device flow requires explicit authentication: run credctl login first"
  | .msg s => s

/-- `daemon.Add` (`part_013` lines 14-82): the read-only check comes
first, before the payload is even decoded; then validation, registry
construction, `Init`, and `State.Add` with the force flag. -/
def AddH (s : DaemonState) (payload : JVal) (readOnly : Bool)
    (disc : DiscoveryOracle) : Response × DaemonState × List AddEvent :=
  if readOnly then
    (errResp "permission denied: add operation not allowed on read-only socket",
     s, [])
  else
    match decodeAddPayload payload with
    | .error e => (errResp ("invalid payload: " ++ e), s, [])
    | .ok ap =>
      if ap.name = "" then (errResp "provider name cannot be empty", s, [])
      else if ap.ptype = "" then (errResp "provider type cannot be empty", s, [])
      else if ¬ registryHas ap.ptype then
        (errResp ("failed to create provider: unknown provider type: " ++ ap.ptype),
         s, [])
      else
        match provInit ap.ptype ap.metadata disc with
        | .error e => (errResp ("failed to initialize provider: " ++ e), s, [])
        | .ok prov =>
          match stateAddSpec s ap.name prov ap.force with
          | (.error e, ev) => (errResp ("failed to add provider: " ++ e), s, ev)
          | (.ok s2, ev) => (okResp, s2, ev)

/-- Build the `get` response from a provider result. -/
def getResponse (r : Except GoErr String) (p : Prov) : Response :=
  match r with
  | .ok out =>
    { status := "ok", payload := some (.getP out (provMetadata p)) }
  | .error .authRequired => errResp "authentication required"
  | .error e => errResp ("failed to get credential: " ++ goErrMsg e)

/-- `daemon.Get` (`part_013` lines 85-139): allowed in both modes; look
the provider up (memory first, disk fallback), run its `Get` under the
60-second timeout, and return output plus metadata.  A provider found in
memory is mutated in place (its token cache may change), so the map keeps
the updated instance; a disk-loaded fallback instance is transient. -/
def GetH (s : DaemonState) (payload : JVal) (env : ProviderEnv)
    (run : String → Except String String) (disc : DiscoveryOracle) :
    Response × DaemonState :=
  match decodeNamePayload payload with
  | .error e => (errResp ("invalid payload: " ++ e), s)
  | .ok gp =>
    match s.providers.find? (fun p => p.1 = gp.name) with
    | some pr =>
      match provGet pr.2 env run with
      | (r, p2) => (getResponse r p2,
          { s with providers := mapUpdate s.providers gp.name p2 })
    | none =>
      match diskLoad s.disk gp.name disc with
      | .error _ => (errResp ("provider not found: " ++ gp.name), s)
      | .ok p =>
        match provGet p env run with
        | (r, p2) => (getResponse r p2, s)

/-- `daemon.Delete` (`part_013` lines 142-186): the read-only check comes
first, before the payload is decoded. -/
def DeleteH (s : DaemonState) (payload : JVal) (readOnly : Bool) :
    Response × DaemonState :=
  if readOnly then
    (errResp "permission denied: delete operation not allowed on read-only socket",
     s)
  else
    match decodeNamePayload payload with
    | .error e => (errResp ("invalid payload: " ++ e), s)
    | .ok dp =>
      if dp.name = "" then (errResp "provider name cannot be empty", s)
      else
        match stateDelete s dp.name with
        | .error e => (errResp ("failed to delete provider: " ++ e), s)
        | .ok s2 => (okResp, s2)

/-- `daemon.SetTokens` (`part_013` lines 188-236).  NOTE: unlike `Add` and
`Delete`, the source performs no read-only check — the handler proceeds
straight to decoding, looks the provider up, checks the
`TokenCacheProvider` capability and replaces the token cache.  A provider
found in memory is mutated in place; a disk-loaded fallback is transient,
so its new tokens are lost. -/
def SetTokensH (s : DaemonState) (payload : JVal) (readOnly : Bool)
    (now : Int) (disc : DiscoveryOracle) : Response × DaemonState :=
  match decodeSetTokensPayload payload with
  | .error e => (errResp ("invalid payload: " ++ e), s)
  | .ok tp =>
    if tp.name = "" then (errResp "provider name cannot be empty", s)
    else
      match s.providers.find? (fun p => p.1 = tp.name) with
      | some pr =>
        if supportsTokenCache pr.2 then
          let p2 := provSetTokens pr.2 now tp.accessToken tp.refreshToken tp.expiresIn
          (okResp, { s with providers := mapUpdate s.providers tp.name p2 })
        else
          (errResp ("provider " ++ tp.name ++ " does not support token caching"), s)
      | none =>
        match diskLoad s.disk tp.name disc with
        | .error _ => (errResp ("provider not found: " ++ tp.name), s)
        | .ok p =>
          if supportsTokenCache p then (okResp, s)
          else
            (errResp ("provider " ++ tp.name ++ " does not support token caching"), s)

/-- `protocol.Request`. -/
structure Request where
  action : String
  payload : JVal

/-- The action dispatch of `daemon.handleConn` (`daemon.go` lines 56-70):
`add`, `get`, `delete` and `set_tokens` are dispatched; any other action —
including `list` — falls to the default branch and is answered with an
"unknown action" error. -/
def handleRequest (s : DaemonState) (req : Request) (readOnly : Bool)
    (env : ProviderEnv) (run : String → Except String String)
    (disc : DiscoveryOracle) : Response × DaemonState :=
  if req.action = "add" then
    match AddH s req.payload readOnly disc with
    | (r, s2, _) => (r, s2)
  else if req.action = "get" then GetH s req.payload env run disc
  else if req.action = "delete" then DeleteH s req.payload readOnly
  else if req.action = "set_tokens" then
    SetTokensH s req.payload readOnly env.now disc
  else (errResp ("unknown action: " ++ req.action), s)

/-! ## Helper predicates and concrete fixtures used in the statements -/

/-- Whether an `Except` result is an error. -/
def exceptIsError {ε α : Type} : Except ε α → Bool
  | .error _ => true
  | .ok _ => false

/-- Whether the configured redirect URI resolves to the local-callback
branch of the authorization-code flow (empty means the default
`http://localhost:PORT/callback`). -/
def isLocalRedirect (redirectURI : String) : Bool :=
  if redirectURI = "" then true
  else
    let (host, _, _) := parseRedirectURI redirectURI
    host = "localhost" ∨ host = "127.0.0.1"

/-- A discovery oracle for fixtures with no issuer configured. -/
def noDisc : DiscoveryOracle := fun _ => .error "no network"

/-- A subprocess oracle for fixtures that never run commands. -/
def noRun : String → Except String String := fun _ => .error "no exec"

/-- A device-flow environment for fixtures that never run the device flow. -/
def noDeviceEnv : DeviceFlowEnv :=
  { deviceOracle := fun _ => .error "no network", pollScript := [] }

/-- A token-endpoint oracle that always fails. -/
def noOracle : TokenOracle := fun _ => .error "no network"

/-- Fixture: a provider environment that performs no I/O. -/
def quietEnv : ProviderEnv :=
  { now := 1000, oracle := noOracle,
    authEnv := { stateRandom := [], verifierRandom := [] },
    deviceEnv := noDeviceEnv }

/-- Fixture: an initialized `oauth2` provider held in daemon memory. -/
def fixOAuthCfg : OAuth2Config :=
  { issuer := "", clientID := "cid", clientSecret := "",
    scopes := [], tokenEndpoint := "https://issuer.example/token",
    authEndpoint := "", deviceEndpoint := "https://issuer.example/device",
    redirectURI := "", redirectPort := 8085, usePKCE := true,
    flow := "device", template := "" }

/-- Fixture: a daemon state holding one oauth2 provider named `p` in
memory and on disk, with an empty token cache. -/
def fixState : DaemonState :=
  { providers := [("p", .oauth2 fixOAuthCfg none)],
    disk := [("p", { name := "p", ptype := "oauth2",
                     data := oauth2Metadata fixOAuthCfg })] }

/-- Fixture: a well-formed `set_tokens` payload for provider `p`. -/
def fixSetTokensPayload : JVal :=
  .jobj [("name", .jstr "p"), ("access_token", .jstr "TOK"),
         ("refresh_token", .jstr "R"), ("expires_in", .jnum 3600)]

/-- Fixture: the config a user supplies for an auth-code provider with
PKCE explicitly disabled. -/
def fixNoPkceConfig : ConfigMap :=
  [("client_id", .str "cid"),
   ("token_endpoint", .str "https://issuer.example/token"),
   ("auth_endpoint", .str "https://issuer.example/auth"),
   ("flow", .str "auth-code"),
   ("use_pkce", .boolv false)]

/-- Fixture: 16 deterministic state bytes. -/
def fixStateRandom : List Nat := List.replicate 16 7

/-- Fixture: 32 deterministic verifier bytes. -/
def fixVerifierRandom : List Nat := List.replicate 32 9

/-- Fixture: an environment whose callback carries the matching state and
a code, and whose token endpoint accepts the exchange only when it carries
a `code_verifier` (a server that enforces PKCE). -/
def fixPkceEnv : ProviderEnv :=
  { now := 1000,
    oracle := fun req =>
      if (req.form.find? (fun p => p.1 = "code_verifier")).isSome then
        .ok { accessToken := "T", expiresIn := 3600 }
      else .ok { error := "invalid_request", errorDesc := "code_verifier required" },
    authEnv := { stateRandom := fixStateRandom,
                 verifierRandom := fixVerifierRandom,
                 browserOk := true,
                 callback := .ok [("state", generateState fixStateRandom),
                                  ("code", "AC")] },
    deviceEnv := noDeviceEnv }

/-- Fixture: a command provider instance. -/
def fixCommandProv : Prov :=
  .command { command := "echo hi", format := "raw", envVar := "",
             filePath := "", fileMode := "0600", loginCommand := "" }

/-- Fixture: an initialized auth-code provider. -/
def fixAuthCodeCfg : OAuth2Config :=
  { issuer := "", clientID := "cid", clientSecret := "",
    scopes := [], tokenEndpoint := "https://issuer.example/token",
    authEndpoint := "https://issuer.example/auth", deviceEndpoint := "",
    redirectURI := "", redirectPort := 8085, usePKCE := true,
    flow := "auth-code", template := "" }

/-- Fixture: an environment whose callback carries a wrong `state`. -/
def fixBadStateEnv : ProviderEnv :=
  { now := 1000, oracle := noOracle,
    authEnv := { stateRandom := fixStateRandom,
                 verifierRandom := fixVerifierRandom,
                 browserOk := true,
                 callback := .ok [("state", "WRONG"), ("code", "AC")] },
    deviceEnv := noDeviceEnv }

/-- Fixture: the initialized provider for `fixNoPkceConfig`
(`use_pkce = false`). -/
def fixNoPkceCfg : OAuth2Config :=
  { issuer := "", clientID := "cid", clientSecret := "",
    scopes := [], tokenEndpoint := "https://issuer.example/token",
    authEndpoint := "https://issuer.example/auth", deviceEndpoint := "",
    redirectURI := "", redirectPort := 8085, usePKCE := false,
    flow := "auth-code", template := "" }

/-- Fixture: the provider obtained by re-initializing from
`fixNoPkceCfg`'s metadata — `use_pkce` has reverted to true. -/
def fixRoundtripCfg : OAuth2Config :=
  { fixNoPkceCfg with usePKCE := true }

/-- Fixture: the same user config without the `use_pkce` entry. -/
def fixPkceConfig : ConfigMap :=
  [("client_id", .str "cid"),
   ("token_endpoint", .str "https://issuer.example/token"),
   ("auth_endpoint", .str "https://issuer.example/auth"),
   ("flow", .str "auth-code")]

/-- Decidable equality of `Except` results, for evaluating fixtures. -/
instance {ε α : Type} [DecidableEq ε] [DecidableEq α] :
    DecidableEq (Except ε α) := fun a b =>
  match a, b with
  | .error x, .error y =>
    if h : x = y then .isTrue (by subst h; rfl)
    else .isFalse (fun hc => h (by cases hc; rfl))
  | .ok x, .ok y =>
    if h : x = y then .isTrue (by subst h; rfl)
    else .isFalse (fun hc => h (by cases hc; rfl))
  | .error _, .ok _ => .isFalse (fun hc => Except.noConfusion hc)
  | .ok _, .error _ => .isFalse (fun hc => Except.noConfusion hc)

/-! ## Theorems -/

/-- C5: for every token cache and time `now`, `IsTokenValid` is true iff
the cache is non-nil, its access token is non-empty, and `now + 30s` is
strictly before `expires_at`; in particular it is false whenever
`expires_at ≤ now + 30s`, and false for a nil cache or empty access
token. -/
theorem c5_token_validity (now : Int) (c : Option TokenCache) :
    IsTokenValid now c = true ↔
      ∃ t, c = some t ∧ t.accessToken ≠ "" ∧ now + 30 < t.expiresAt := by
  cases c with
  | none => simp [IsTokenValid]
  | some t =>
    by_cases h : t.accessToken = "" <;> simp [IsTokenValid, h]

/-- C5 witness: the theorem applied at a concrete valid cache and at a
cache that expires within the 30-second buffer. -/
theorem c5_token_validity_witness :
    IsTokenValid 0 (some { accessToken := "a", expiresAt := 100 }) = true ∧
    IsTokenValid 0 (some { accessToken := "a", expiresAt := 30 }) = false := by
  constructor
  · exact (c5_token_validity 0 (some { accessToken := "a", expiresAt := 100 })).mpr
      ⟨{ accessToken := "a", expiresAt := 100 }, rfl, by decide, by decide⟩
  · by_contra h
    have := (c5_token_validity 0 (some { accessToken := "a", expiresAt := 30 })).mp
      (by simpa using h)
    obtain ⟨t, ht, -, hlt⟩ := this
    cases ht
    simp at hlt

/-- C4: the device-flow poll loop behaves as specified: within the
deadline, an empty `error` field returns the token response;
`authorization_pending` polls again after the same interval; `slow_down`
increases the interval by exactly 5 seconds before continuing;
`expired_token` and `access_denied` are terminal regardless of any further
scripted responses, as is any other non-empty error value; once the wall
clock passes the deadline the loop returns the terminal timeout; and
`pollForDeviceTokenResponse` defaults the interval to 5 seconds when the
server returned 0. -/
theorem c4_poll_loop :
    (∀ (r : TokenResponse) rest now i d, now ≤ d → r.error = "" →
      pollLoop now i d (r :: rest) = (.success r, 1)) ∧
    (∀ (r : TokenResponse) rest now i d, now ≤ d →
      r.error = "authorization_pending" →
      pollLoop now i d (r :: rest) =
        ((pollLoop (now + i) i d rest).1, (pollLoop (now + i) i d rest).2 + 1)) ∧
    (∀ (r : TokenResponse) rest now i d, now ≤ d → r.error = "slow_down" →
      pollLoop now i d (r :: rest) =
        ((pollLoop (now + (i + 5)) (i + 5) d rest).1,
         (pollLoop (now + (i + 5)) (i + 5) d rest).2 + 1)) ∧
    (∀ (r : TokenResponse) rest now i d, now ≤ d → r.error = "expired_token" →
      pollLoop now i d (r :: rest) = (.expiredToken, 1)) ∧
    (∀ (r : TokenResponse) rest now i d, now ≤ d → r.error = "access_denied" →
      pollLoop now i d (r :: rest) = (.accessDenied, 1)) ∧
    (∀ (r : TokenResponse) rest now i d, now ≤ d → r.error ≠ "" →
      r.error ≠ "authorization_pending" → r.error ≠ "slow_down" →
      r.error ≠ "expired_token" → r.error ≠ "access_denied" →
      pollLoop now i d (r :: rest) = (.tokenError r.error r.errorDesc, 1)) ∧
    (∀ script now i d, now > d → pollLoop now i d script = (.timeout, 0)) ∧
    (∀ script now (da : DeviceAuthResponse), da.interval = 0 →
      pollForDeviceTokenResponse script now da =
        pollLoop now 5 (now + da.expiresIn) script) := by
  refine ⟨?_, ?_, ?_, ?_, ?_, ?_, ?_, ?_⟩
  · intro r rest now i d hle he
    simp [pollLoop, not_lt.mpr hle, he]
  · intro r rest now i d hle he
    simp [pollLoop, not_lt.mpr hle, he]
  · intro r rest now i d hle he
    simp [pollLoop, not_lt.mpr hle, he]
  · intro r rest now i d hle he
    simp [pollLoop, not_lt.mpr hle, he]
  · intro r rest now i d hle he
    simp [pollLoop, not_lt.mpr hle, he]
  · intro r rest now i d hle he hp hs hx ha
    simp [pollLoop, not_lt.mpr hle, he, hp, hs, hx, ha]
  · intro script now i d hgt
    cases script <;> simp [pollLoop, hgt]
  · intro script now da h0
    simp [pollForDeviceTokenResponse, h0]

/-- C4 witness: the theorem applied to a two-step script that is pending
once and then succeeds, and to an expired-token response followed by more
scripted responses that are never consumed. -/
theorem c4_poll_loop_witness :
    pollLoop 0 5 600 [{ error := "authorization_pending" }, { accessToken := "T" }] =
      ((pollLoop 5 5 600 [{ accessToken := "T" }]).1,
       (pollLoop 5 5 600 [{ accessToken := "T" }]).2 + 1) ∧
    pollLoop 0 5 600 [{ error := "expired_token" }, { accessToken := "T" }] =
      (.expiredToken, 1) ∧
    pollLoop 700 5 600 [{ accessToken := "T" }] = (.timeout, 0) := by
  refine ⟨?_, ?_, ?_⟩
  · exact c4_poll_loop.2.1 { error := "authorization_pending" }
      [{ accessToken := "T" }] 0 5 600 (by decide) rfl
  · exact c4_poll_loop.2.2.2.1 { error := "expired_token" }
      [{ accessToken := "T" }] 0 5 600 (by decide) rfl
  · exact c4_poll_loop.2.2.2.2.2.2.1 [{ accessToken := "T" }] 700 5 600 (by decide)

/-- Helper: every run of `DeviceProvider.Login` begins with the
device-authorization request — the device flow is what `Login`
executes. -/
theorem dlogin_trace_head (p : DeviceConfig) (tokens : Option TokenCache)
    (env : ProviderEnv) :
    (dlogin p tokens env).2.2.head? =
      some (deviceAuthRequest p.deviceEndpoint p.clientID p.scopes) := by
  unfold dlogin AuthenticateDeviceFlow
  cases h : env.deviceEnv.deviceOracle
      (deviceAuthRequest p.deviceEndpoint p.clientID p.scopes) with
  | error e => simp [h]
  | ok da =>
    by_cases he : da.error = ""
    · rcases hp : pollForDeviceTokenResponse env.deviceEnv.pollScript env.now da
        with ⟨res, n⟩
      cases res <;> simp [h, he, hp]
    · simp [h, he]

/-- C2: a device-flow provider whose cache holds no valid token and no
refresh token answers `Get` with an authentication-required-class error,
issues no network request, and leaves its cache unchanged — for both the
dedicated `oauth2-device` provider (`ErrAuthenticationRequired`) and the
universal `oauth2` provider with `flow = "device"`
(`ErrDeviceFlowRequiresLogin`); the device flow itself runs only in an
explicit `Login`, whose very first action is the device-authorization
request. -/
theorem c2_device_get_requires_login (p : DeviceConfig) (cfg : OAuth2Config)
    (tokens : Option TokenCache) (env : ProviderEnv)
    (hv : IsTokenValid env.now tokens = false)
    (hr : ∀ t, tokens = some t → t.refreshToken = "")
    (hflow : cfg.flow = FlowDevice) :
    dget p tokens env = (.error .authRequired, tokens, []) ∧
    oget cfg tokens env = (.error .deviceFlowRequiresLogin, tokens, []) ∧
    isAuthRequiredClass .authRequired = true ∧
    isAuthRequiredClass .deviceFlowRequiresLogin = true ∧
    (dlogin p tokens env).2.2.head? =
      some (deviceAuthRequest p.deviceEndpoint p.clientID p.scopes) := by
  refine ⟨?_, ?_, rfl, rfl, dlogin_trace_head p tokens env⟩
  · cases tokens with
    | none => simp [dget]
    | some t => simp [dget, hv, hr t rfl]
  · have h1 : (FlowDevice = FlowClientCredentials) = False :=
      eq_false (by decide)
    have h2 : (FlowDevice = FlowAuthCode) = False := eq_false (by decide)
    cases tokens with
    | none => simp [oget, ogetFlow, hflow, h1, h2]
    | some t => simp [oget, ogetFlow, hv, hr t rfl, hflow, h1, h2]

/-- C2 witness: the theorem applied to the fixture device provider with an
empty cache in an environment that would fail any network call. -/
theorem c2_device_get_requires_login_witness :
    dget { clientID := "cid", clientSecret := "", scopes := [],
           tokenEndpoint := "https://issuer.example/token",
           deviceEndpoint := "https://issuer.example/device" } none quietEnv =
      (.error .authRequired, none, []) ∧
    oget fixOAuthCfg none quietEnv =
      (.error .deviceFlowRequiresLogin, none, []) :=
  ⟨(c2_device_get_requires_login
      { clientID := "cid", clientSecret := "", scopes := [],
        tokenEndpoint := "https://issuer.example/token",
        deviceEndpoint := "https://issuer.example/device" }
      fixOAuthCfg none quietEnv rfl (fun t h => by cases h) rfl).1,
   (c2_device_get_requires_login
      { clientID := "cid", clientSecret := "", scopes := [],
        tokenEndpoint := "https://issuer.example/token",
        deviceEndpoint := "https://issuer.example/device" }
      fixOAuthCfg none quietEnv rfl (fun t h => by cases h) rfl).2.1⟩

/-- Helper: a provider rebuilt by the registry (`New` + `Init`) always
carries an empty token cache. -/
theorem provInit_tokens_none (ptype : String) (config : ConfigMap)
    (disc : DiscoveryOracle) (p : Prov)
    (h : provInit ptype config disc = .ok p) : tokensOf p = none := by
  unfold provInit at h
  by_cases h1 : ptype = "command"
  · simp [h1] at h
    cases hc : commandInit config with
    | ok c => rw [hc] at h; cases h; rfl
    | error e => rw [hc] at h; cases h
  · by_cases h2 : ptype = "oauth2"
    · simp [h1, h2] at h
      cases hc : oauth2Init config disc with
      | ok c => rw [hc] at h; cases h; rfl
      | error e => rw [hc] at h; cases h
    · by_cases h3 : ptype = "oauth2-device"
      · simp [h1, h2, h3] at h
        cases h; rfl
      · simp [h1, h2, h3] at h

/-- C10: `State.Get` never mutates the in-memory provider map: a name
missing from memory is answered by a disk load whose instance is returned
to the caller but not inserted, so the `get` handler leaves the state
untouched, a repeated `get` for the same missing name behaves identically
(loading a fresh instance again), and every disk-loaded instance carries
an empty in-memory token cache. -/
theorem c10_state_get_frame (s : DaemonState) (payload : JVal)
    (env : ProviderEnv) (run : String → Except String String)
    (disc : DiscoveryOracle) (gp : NamePayload)
    (hdec : decodeNamePayload payload = .ok gp)
    (hfind : s.providers.find? (fun q => q.1 = gp.name) = none) :
    stateGet s gp.name disc = diskLoad s.disk gp.name disc ∧
    (∀ p, diskLoad s.disk gp.name disc = .ok p → tokensOf p = none) ∧
    (GetH s payload env run disc).2 = s ∧
    GetH ((GetH s payload env run disc).2) payload env run disc =
      GetH s payload env run disc := by
  have hframe : (GetH s payload env run disc).2 = s := by
    unfold GetH
    rw [hdec]
    simp only [hfind]
    cases hl : diskLoad s.disk gp.name disc with
    | error e => simp
    | ok p =>
      rcases hg : provGet p env run with ⟨r, p2⟩
      simp
  refine ⟨?_, ?_, hframe, by rw [hframe]⟩
  · unfold stateGet
    rw [hfind]
  · intro p hl
    unfold diskLoad at hl
    cases hf : s.disk.find? (fun q => q.1 = gp.name) with
    | none => rw [hf] at hl; cases hl
    | some q =>
      rw [hf] at hl
      exact provInit_tokens_none q.2.ptype q.2.data disc p hl

/-- C10 witness: the theorem applied to a state whose memory map is empty
but whose disk holds provider `p`. -/
theorem c10_state_get_frame_witness :
    (GetH { providers := [], disk := fixState.disk }
      (.jobj [("name", .jstr "p")]) quietEnv noRun noDisc).2 =
      { providers := [], disk := fixState.disk } :=
  (c10_state_get_frame { providers := [], disk := fixState.disk }
    (.jobj [("name", .jstr "p")]) quietEnv noRun noDisc { name := "p" }
    rfl rfl).2.2.1

/-- C1: evaluation at the failing input.  Unlike `Add` and `Delete` — which
return a permission-denied error before touching anything when `readOnly`
is set — `SetTokens` performs no read-only check: a well-formed
`set_tokens` request arriving on the read-only socket for the in-memory
oauth2 provider `p` is answered `ok` and replaces that provider's token
cache, mutating Daemon State.  (For contrast, the same read-only flag makes
`add` and `delete` return permission denied with the state unchanged.) -/
theorem c1_set_tokens_readonly_not_denied :
    (SetTokensH fixState fixSetTokensPayload true 1000 noDisc).1 = okResp ∧
    (SetTokensH fixState fixSetTokensPayload true 1000 noDisc).2 ≠ fixState ∧
    ((SetTokensH fixState fixSetTokensPayload true 1000 noDisc).2.providers.find?
        (fun q => q.1 = "p")).map (fun q => tokensOf q.2) =
      some (some { accessToken := "TOK", refreshToken := "R",
                   expiresAt := 4600 }) ∧
    AddH fixState fixSetTokensPayload true noDisc =
      (errResp "permission denied: add operation not allowed on read-only socket",
       fixState, []) ∧
    DeleteH fixState fixSetTokensPayload true =
      (errResp "permission denied: delete operation not allowed on read-only socket",
       fixState) := by
  refine ⟨rfl, by decide, rfl, rfl, rfl⟩

/-- C6: evaluation at the failing input.  The dispatch of
`daemon.handleConn` has no `list` case, so a `list` request — on the admin
socket or the read-only socket — is rejected as an unknown action instead
of returning the providers listing. -/
theorem c6_list_rejected_as_unknown :
    handleRequest fixState { action := "list", payload := .null } false
      quietEnv noRun noDisc = (errResp "unknown action: list", fixState) ∧
    handleRequest fixState { action := "list", payload := .null } true
      quietEnv noRun noDisc = (errResp "unknown action: list", fixState) :=
  ⟨rfl, rfl⟩

/-- Helper: updating an association map makes the new binding the one a
lookup finds. -/
theorem find?_mapUpdate {α : Type} (m : List (String × α)) (k : String) (v : α) :
    (mapUpdate m k v).find? (fun p => p.1 = k) = some (k, v) := by
  induction m with
  | nil => simp [mapUpdate]
  | cons hd tl ih =>
    by_cases h : hd.1 = k
    · simp [mapUpdate, h]
    · simp [mapUpdate, h, ih]

/-- C7: an `add` for an existing name without `force` fails and changes
nothing (the handler returns the state unchanged on every error path); with
`force` it succeeds and overwrites the stored provider; and every
successful add writes to disk before publishing into the in-memory map
(the event trace is exactly disk-write followed by memory-publish). -/
theorem c7_add_force :
    (∀ (s : DaemonState) name p, diskExists s.disk name = true →
      stateAddSpec s name p false =
        (.error ("provider " ++ name ++ " already exists"), [])) ∧
    (∀ (s : DaemonState) name p force s2 ev,
      stateAddSpec s name p force = (.ok s2, ev) →
      s2.providers.find? (fun q => q.1 = name) = some (name, p) ∧
      s2.disk.find? (fun q => q.1 = name) =
        some (name, { name, ptype := provType p, data := provMetadata p }) ∧
      ev = [.diskWrite name, .memPublish name]) ∧
    (∀ (s : DaemonState) name p,
      exceptIsError (stateAddSpec s name p true).1 = false) ∧
    (∀ (s : DaemonState) payload disc r s2 ev,
      AddH s payload false disc = (r, s2, ev) → r.status = "error" →
      s2 = s) := by
  refine ⟨?_, ?_, ?_, ?_⟩
  · intro s name p h
    simp [stateAddSpec, h]
  · intro s name p force s2 ev h
    unfold stateAddSpec at h
    split at h
    · cases h
    · rcases h with ⟨rfl, rfl⟩ | h
      · exact ⟨find?_mapUpdate _ _ _, find?_mapUpdate _ _ _, rfl⟩
  · intro s name p
    simp [stateAddSpec, exceptIsError]
  · intro s payload disc r s2 ev h hr
    unfold AddH at h
    simp only [if_neg (by decide : ¬ (false = true))] at h
    split at h
    · cases h; rfl
    · split at h
      · cases h; rfl
      · split at h
        · cases h; rfl
        · split at h
          · cases h; rfl
          · split at h
            · cases h; rfl
            · split at h
              · cases h; rfl
              · cases h; simp [okResp] at hr

/-- C7 witness: adding the already-stored name `p` without force fails;
with force it succeeds and the events put the disk write first. -/
theorem c7_add_force_witness :
    stateAddSpec fixState "p" fixCommandProv false =
      (.error "provider p already exists", []) ∧
    exceptIsError (stateAddSpec fixState "p" fixCommandProv true).1 = false := by
  constructor
  · exact c7_add_force.1 fixState "p" fixCommandProv (by decide)
  · exact c7_add_force.2.2.1 fixState "p" fixCommandProv

/-- Helper: length of the unpadded base64 encoding. -/
theorem base64urlChars_length (bs : List Nat) :
    (base64urlChars bs).length = (4 * bs.length + 2) / 3 := by
  induction bs using base64urlChars.induct with
  | case1 b1 b2 b3 rest ih => simp [base64urlChars, ih]; omega
  | case2 b1 b2 => simp [base64urlChars]
  | case3 b1 => simp [base64urlChars]
  | case4 => simp [base64urlChars]

/-- C8: the code verifier is the URL-safe base64 encoding of the 32 random
bytes drawn for it (hence 43 characters carrying 32 bytes of entropy), the
code challenge of any verifier is BASE64URL(SHA-256(verifier bytes)), and
the anti-CSRF state is the URL-safe base64 encoding of its 16 random bytes
(22 characters). -/
theorem c8_pkce_material (vrand srand : List Nat)
    (hv : vrand.length = 32) (hs : srand.length = 16) :
    GenerateCodeVerifier vrand = base64urlNoPad vrand ∧
    (GenerateCodeVerifier vrand).length = 43 ∧
    generateState srand = base64urlNoPad srand ∧
    (generateState srand).length = 22 ∧
    (∀ v : String,
      GenerateCodeChallenge v = base64urlNoPad (sha256 (utf8Bytes v))) := by
  refine ⟨rfl, ?_, rfl, ?_, fun v => rfl⟩
  · show (base64urlNoPad vrand).length = 43
    simp [base64urlNoPad, String.length, base64urlChars_length, hv]
  · show (base64urlNoPad srand).length = 22
    simp [base64urlNoPad, String.length, base64urlChars_length, hs]

/-- C8 witness: the theorem applied to concrete 32-byte and 16-byte draws,
together with the FIPS 180-4 value of the challenge construction on the
verifier text `test`. -/
theorem c8_pkce_material_witness :
    (GenerateCodeVerifier (List.replicate 32 9)).length = 43 ∧
    (generateState (List.replicate 16 7)).length = 22 ∧
    GenerateCodeChallenge "test" =
      "n4bQgYhMfWWaL-qgxVrQFaO_TxsrC4Is0V1sFbDwCgg" := by
  have h := c8_pkce_material (List.replicate 32 9) (List.replicate 16 7)
    (by decide) (by decide)
  exact ⟨h.2.1, h.2.2.2.1, by decide⟩

/-- Helper: a callback that `processCallback` accepts carried exactly the
generated state and no `error` parameter. -/
theorem processCallback_ok_inv (state : String) (ps : List (String × String))
    (code : String) (h : processCallback state ps = .ok code) :
    getParam ps "state" = state ∧ getParam ps "error" = "" := by
  unfold processCallback at h
  split at h
  · cases h
  · split at h
    · cases h
    · split at h
      · cases h
      · rename_i h1 h2 h3
        exact ⟨by simpa using h1, by simpa using h2⟩

/-- Helper: if the authorization-code flow succeeded through the local
callback server, the callback's `state` matched the generated state and it
carried no `error` parameter. -/
theorem authFlow_ok_callback (params : AuthCodeFlowParams) (env : AuthCodeEnv)
    (ps : List (String × String)) (out : String × String × String)
    (hlocal : isLocalRedirect params.redirectURI = true)
    (hcb : env.callback = .ok ps)
    (hok : AuthenticateAuthCodeFlow params env = .ok out) :
    getParam ps "state" = generateState env.stateRandom ∧
    getParam ps "error" = "" := by
  unfold AuthenticateAuthCodeFlow at hok
  by_cases hempty : params.redirectURI = ""
  · simp only [hempty, if_pos rfl, ite_true] at hok
    by_cases hb : env.browserOk
    · simp only [hb, not_true, if_neg, ite_false] at hok
      rw [hcb] at hok
      simp only [] at hok
      cases hpc : processCallback (generateState env.stateRandom) ps with
      | error e => rw [hpc] at hok; cases hok
      | ok code => exact processCallback_ok_inv _ _ _ hpc
    · simp [hb] at hok
  · rcases hp : parseRedirectURI params.redirectURI with ⟨host, port, path⟩
    have hloc : (host = "localhost" ∨ host = "127.0.0.1") := by
      unfold isLocalRedirect at hlocal
      rw [if_neg hempty, hp] at hlocal
      simpa using hlocal
    simp only [hempty, if_neg, hp] at hok
    by_cases hport : (host = "localhost" ∨ host = "127.0.0.1") ∧
        port ≠ "" ∧ port.toNat? = none
    · simp [hport] at hok
    · simp only [hport, ite_false, if_neg] at hok
      by_cases hb : env.browserOk
      · simp only [hb, not_true] at hok
        simp only [hloc, if_pos] at hok
        rw [hcb] at hok
        cases hpc : processCallback (generateState env.stateRandom) ps with
        | error e => simp [hpc] at hok
        | ok code => exact processCallback_ok_inv _ _ _ hpc
      · simp [hb] at hok

/-- C3: in the authorization-code flow over a local redirect, a callback
whose `state` differs from the generated state, or that carries a
non-empty `error` parameter, makes the flow terminate with an error, and
the token-exchange request is never issued (the flow issues no request at
all). -/
theorem c3_callback_validation (cfg : OAuth2Config) (env : ProviderEnv)
    (ps : List (String × String))
    (hlocal : isLocalRedirect cfg.redirectURI = true)
    (hcb : env.authEnv.callback = .ok ps)
    (hbad : getParam ps "state" ≠ generateState env.authEnv.stateRandom ∨
      getParam ps "error" ≠ "") :
    exceptIsError (doAuthorizationCodeFlow cfg env).1 = true ∧
    (doAuthorizationCodeFlow cfg env).2 = [] := by
  cases haf : AuthenticateAuthCodeFlow
      { authEndpoint := cfg.authEndpoint, clientID := cfg.clientID,
        scopes := cfg.scopes, redirectURI := cfg.redirectURI,
        redirectPort := cfg.redirectPort, usePKCE := cfg.usePKCE }
      env.authEnv with
  | error e =>
    unfold doAuthorizationCodeFlow
    rw [haf]
    exact ⟨rfl, rfl⟩
  | ok out =>
    exfalso
    have hinv := authFlow_ok_callback _ env.authEnv ps out hlocal hcb haf
    rcases hbad with hb | hb
    · exact hb hinv.1
    · exact hb hinv.2

/-- C3 witness: the theorem applied to a concrete auth-code provider whose
callback arrived with `state = "WRONG"`. -/
theorem c3_callback_validation_witness :
    exceptIsError (doAuthorizationCodeFlow fixAuthCodeCfg fixBadStateEnv).1 =
      true ∧
    (doAuthorizationCodeFlow fixAuthCodeCfg fixBadStateEnv).2 = [] :=
  c3_callback_validation fixAuthCodeCfg fixBadStateEnv
    [("state", "WRONG"), ("code", "AC")] rfl rfl (.inl (by decide))

/-- Helper: lookup in the empty config map. -/
theorem cfgGet_nil (k : String) : cfgGet [] k = none := rfl

/-- Helper: lookup over a cons cell. -/
theorem cfgGet_cons (key k : String) (v : ConfigValue) (ys : ConfigMap) :
    cfgGet ((key, v) :: ys) k = if key = k then some v else cfgGet ys k := by
  by_cases h : key = k <;> simp [cfgGet, List.find?, h]

/-- Helper: lookup over an append. -/
theorem cfgGet_append (xs ys : ConfigMap) (k : String) :
    cfgGet (xs ++ ys) k = (cfgGet xs k).orElse (fun _ => cfgGet ys k) := by
  induction xs with
  | nil => simp [cfgGet_nil]
  | cons hd tl ih =>
    by_cases h : hd.1 = k
    · simp [cfgGet, List.find?, h]
    · simp only [List.cons_append]
      rw [show hd = (hd.1, hd.2) from rfl, cfgGet_cons, cfgGet_cons, if_neg h,
        if_neg h, ih]

/-- Helper: lookup over a conditional one-entry segment. -/
theorem cfgGet_if_single (c : Prop) [Decidable c] (key k : String)
    (v : ConfigValue) :
    cfgGet (if c then [(key, v)] else []) k =
      if c ∧ key = k then some v else none := by
  by_cases hc : c <;> by_cases hk : key = k <;>
    simp [hc, hk, cfgGet_cons, cfgGet_nil]

/-- Helper: lookup over a negated conditional one-entry segment. -/
theorem cfgGet_if_single2 (c : Prop) [Decidable c] (key k : String)
    (v : ConfigValue) :
    cfgGet (if c then [] else [(key, v)]) k =
      if ¬ c ∧ key = k then some v else none := by
  by_cases hc : c <;> by_cases hk : key = k <;>
    simp [hc, hk, cfgGet_cons, cfgGet_nil]

/-- Helper: the OIDC scope default is never empty. -/
theorem getScopesOrDefault_ne (config : ConfigMap) :
    GetScopesOrDefault config ≠ [] := by
  simp only [GetScopesOrDefault]
  split
  · simp
  · assumption

/-- Helper: inversion of the final validations of `Init`. -/
theorem oauth2Finish_facts (issuer clientID clientSecret : String)
    (scopes : List String) (redirectURI : String) (redirectPort : Int)
    (usePKCE : Bool) (flow template te ae de : String) (p : OAuth2Config)
    (h : oauth2Finish issuer clientID clientSecret scopes redirectURI
      redirectPort usePKCE flow template te ae de = .ok p) :
    p = { issuer, clientID, clientSecret, scopes, tokenEndpoint := te,
          authEndpoint := ae, deviceEndpoint := de, redirectURI,
          redirectPort, usePKCE, flow, template } ∧
    te ≠ "" ∧ ¬ (flow = FlowDevice ∧ de = "") ∧
    ¬ (flow = FlowAuthCode ∧ ae = "") ∧
    ¬ (flow = FlowClientCredentials ∧ clientSecret = "") := by
  unfold oauth2Finish at h
  split at h
  · cases h
  · split at h
    · cases h
    · split at h
      · cases h
      · split at h
        · cases h
        · cases h
          rename_i h1 h2 h3 h4
          exact ⟨rfl, h1, h2, h3, h4⟩

set_option maxHeartbeats 1000000 in
/-- Helper: everything `Init` guarantees about a provider it accepted. -/
theorem oauth2Init_facts (config : ConfigMap) (disc : DiscoveryOracle)
    (p : OAuth2Config) (h : oauth2Init config disc = .ok p) :
    (p.flow = FlowDevice ∨ p.flow = FlowAuthCode ∨
      p.flow = FlowClientCredentials) ∧
    p.tokenEndpoint ≠ "" ∧
    (p.flow = FlowDevice → p.deviceEndpoint ≠ "") ∧
    (p.flow = FlowAuthCode → p.authEndpoint ≠ "") ∧
    (p.flow = FlowClientCredentials → p.clientSecret ≠ "") ∧
    (p.issuer ≠ "" → ∃ doc, disc p.issuer = .ok doc) ∧
    (p.issuer ≠ "" → p.scopes ≠ []) := by
  simp only [oauth2Init] at h
  split at h
  · cases h
  · split at h
    · cases h
    · rename_i hflow0 hvalid0
      by_cases hiss : GetStringOrDefault config "issuer" "" = ""
      · rw [if_neg (by simpa using hiss)] at h
        obtain ⟨hp, h1, h2, h3, h4⟩ :=
          oauth2Finish_facts _ _ _ _ _ _ _ _ _ _ _ _ p h
        subst hp
        refine ⟨not_not.mp hvalid0, h1, ?_, ?_, ?_, ?_, ?_⟩
        · exact fun hf hd => h2 ⟨hf, hd⟩
        · exact fun hf hd => h3 ⟨hf, hd⟩
        · exact fun hf hd => h4 ⟨hf, hd⟩
        · intro hne
          exact absurd hiss (by simpa using hne)
        · intro hne
          exact absurd hiss (by simpa using hne)
      · rw [if_pos (by simpa using hiss)] at h
        cases hd : disc (GetStringOrDefault config "issuer" "") with
        | error e => rw [hd] at h; cases h
        | ok doc =>
          rw [hd] at h
          rcases hfill : oauth2FillEndpoints
              (GetStringOrDefault config "flow" "")
              (GetStringOrDefault config "token_endpoint" "")
              (GetStringOrDefault config "auth_endpoint" "")
              (GetStringOrDefault config "device_endpoint" "") doc
            with ⟨te1, ae1, de1⟩
          simp only [] at h
          rw [hfill] at h
          simp only [] at h
          obtain ⟨hp, h1, h2, h3, h4⟩ :=
            oauth2Finish_facts _ _ _ _ _ _ _ _ _ _ _ _ p h
          subst hp
          refine ⟨not_not.mp hvalid0, h1, ?_, ?_, ?_, ?_, ?_⟩
          · exact fun hf hd => h2 ⟨hf, hd⟩
          · exact fun hf hd => h3 ⟨hf, hd⟩
          · exact fun hf hd => h4 ⟨hf, hd⟩
          · intro _
            exact ⟨doc, hd⟩
          · intro _
            simp only [if_pos (by simpa using hiss)]
            exact getScopesOrDefault_ne config

set_option maxHeartbeats 2000000 in
/-- Helper: re-initializing from the metadata of an accepted provider with
`use_pkce = true` and a non-zero redirect port reproduces it exactly. -/
theorem oauth2_reinit (p : OAuth2Config) (disc : DiscoveryOracle)
    (hflow : p.flow = FlowDevice ∨ p.flow = FlowAuthCode ∨
      p.flow = FlowClientCredentials)
    (hte : p.tokenEndpoint ≠ "")
    (hdev : p.flow = FlowDevice → p.deviceEndpoint ≠ "")
    (hauth : p.flow = FlowAuthCode → p.authEndpoint ≠ "")
    (hcs : p.flow = FlowClientCredentials → p.clientSecret ≠ "")
    (hdisc : p.issuer ≠ "" → ∃ doc, disc p.issuer = .ok doc)
    (hscopes : p.issuer ≠ "" → p.scopes ≠ [])
    (hpkce : p.usePKCE = true)
    (hport : p.redirectPort ≠ 0) :
    oauth2Init (oauth2Metadata p) disc = .ok p := by
  obtain ⟨iss, cid, cs, scopes, te, ae, de, ru, port, pkce, flow, tmpl⟩ := p
  simp only [] at hflow hte hdev hauth hcs hdisc hscopes hpkce hport
  subst hpkce
  have hflowne : flow ≠ "" := by
    rcases hflow with h | h | h <;> (subst h; decide)
  have hvalid : (¬ (flow = FlowDevice ∨ flow = FlowAuthCode ∨
      flow = FlowClientCredentials)) = False := eq_false (fun h => h hflow)
  have hnd : ¬ (flow = FlowDevice ∧ de = "") := by
    rintro ⟨hf, hd⟩; exact hdev hf hd
  have hna : ¬ (flow = FlowAuthCode ∧ ae = "") := by
    rintro ⟨hf, hd⟩; exact hauth hf hd
  have hnc : ¬ (flow = FlowClientCredentials ∧ cs = "") := by
    rintro ⟨hf, hd⟩; exact hcs hf hd
  have hte' : (te = "") = False := eq_false hte
  set M := oauth2Metadata
    ⟨iss, cid, cs, scopes, te, ae, de, ru, port, true, flow, tmpl⟩ with hM
  have g1 : GetStringOrDefault M "client_id" "" = cid := by
    simp [GetStringOrDefault, hM, oauth2Metadata, cfgGet_append, cfgGet_cons,
      cfgGet_if_single, cfgGet_if_single2, cfgGet_nil]
  have g2 : GetStringOrDefault M "issuer" "" = iss := by
    by_cases h : iss = "" <;>
      simp [GetStringOrDefault, hM, oauth2Metadata, cfgGet_append, cfgGet_cons,
        cfgGet_if_single, cfgGet_if_single2, cfgGet_nil, h]
  have g3 : GetStringOrDefault M "client_secret" "" = cs := by
    by_cases h : cs = "" <;>
      simp [GetStringOrDefault, hM, oauth2Metadata, cfgGet_append, cfgGet_cons,
        cfgGet_if_single, cfgGet_if_single2, cfgGet_nil, h]
  have g4 : GetScopes M = scopes := by
    by_cases h : scopes = ([] : List String) <;>
      simp [GetScopes, GetStringSliceOrDefault, hM, oauth2Metadata,
        cfgGet_append, cfgGet_cons, cfgGet_if_single, cfgGet_if_single2,
        cfgGet_nil, h]
  have g5 : GetStringOrDefault M "token_endpoint" "" = te := by
    simp [GetStringOrDefault, hM, oauth2Metadata, cfgGet_append, cfgGet_cons,
      cfgGet_if_single, cfgGet_if_single2, cfgGet_nil, hte]
  have g6 : GetStringOrDefault M "auth_endpoint" "" = ae := by
    by_cases h : ae = "" <;>
      simp [GetStringOrDefault, hM, oauth2Metadata, cfgGet_append, cfgGet_cons,
        cfgGet_if_single, cfgGet_if_single2, cfgGet_nil, h]
  have g7 : GetStringOrDefault M "device_endpoint" "" = de := by
    by_cases h : de = "" <;>
      simp [GetStringOrDefault, hM, oauth2Metadata, cfgGet_append, cfgGet_cons,
        cfgGet_if_single, cfgGet_if_single2, cfgGet_nil, h]
  have g8 : GetStringOrDefault M "redirect_uri" "" = ru := by
    by_cases h : ru = "" <;>
      simp [GetStringOrDefault, hM, oauth2Metadata, cfgGet_append, cfgGet_cons,
        cfgGet_if_single, cfgGet_if_single2, cfgGet_nil, h]
  have g9 : GetIntOrDefault M "redirect_port" 8085 = port := by
    simp [GetIntOrDefault, hM, oauth2Metadata, cfgGet_append, cfgGet_cons,
      cfgGet_if_single, cfgGet_if_single2, cfgGet_nil, hport]
  have g10 : GetBoolOrDefault M "use_pkce" true = true := by
    simp [GetBoolOrDefault, hM, oauth2Metadata, cfgGet_append, cfgGet_cons,
      cfgGet_if_single, cfgGet_if_single2, cfgGet_nil]
  have g11 : GetStringOrDefault M "flow" "" = flow := by
    simp [GetStringOrDefault, hM, oauth2Metadata, cfgGet_append, cfgGet_cons,
      cfgGet_if_single, cfgGet_if_single2, cfgGet_nil, hflowne]
  have g12 : GetStringOrDefault M "template" "" = tmpl := by
    by_cases h : tmpl = "" <;>
      simp [GetStringOrDefault, hM, oauth2Metadata, cfgGet_append, cfgGet_cons,
        cfgGet_if_single, cfgGet_if_single2, cfgGet_nil, h]
  by_cases hiss : iss = ""
  · simp only [oauth2Init, g1, g2, g3, g4, g5, g6, g7, g8, g9, g10, g11, g12,
      GetScopesOrDefault]
    simp [oauth2Finish, hflowne, hvalid, hnd, hna, hnc, hte', hiss, g4]
  · obtain ⟨doc, hdoc⟩ := hdisc hiss
    have hsc : scopes ≠ [] := hscopes hiss
    have hnd2 : ¬ (flow = FlowDevice ∧ de = "" ∧ doc.deviceEndpoint ≠ "") := by
      rintro ⟨hf, hd, -⟩
      exact hdev hf hd
    simp only [oauth2Init, g1, g2, g3, g4, g5, g6, g7, g8, g9, g10, g11, g12,
      GetScopesOrDefault]
    simp [oauth2Finish, oauth2FillEndpoints, hflowne, hvalid, hnd, hna, hnc,
      hnd2, hte', hiss, hdoc, hsc, g4]

/-- C9 counterexample: the Metadata/Init round-trip is NOT operationally
faithful for every provider.  `Metadata` stores `use_pkce` only when it is
true, and `Init` defaults it to true, so a provider initialized with
`use_pkce = false` comes back with `use_pkce = true`; against a token
endpoint that requires PKCE (accepting the exchange only when a
`code_verifier` is present) the original provider's `Get` fails while the
round-tripped provider's `Get` succeeds. -/
theorem c9_roundtrip_counterexample :
    oauth2Init fixNoPkceConfig noDisc = .ok fixNoPkceCfg ∧
    oauth2Init (oauth2Metadata fixNoPkceCfg) noDisc = .ok fixRoundtripCfg ∧
    fixRoundtripCfg.usePKCE ≠ fixNoPkceCfg.usePKCE ∧
    (oget fixNoPkceCfg none fixPkceEnv).1 ≠ (oget fixRoundtripCfg none fixPkceEnv).1 ∧
    (oget fixRoundtripCfg none fixPkceEnv).1 = .ok "T" := by
  refine ⟨rfl, rfl, by decide, by decide, by decide⟩

/-- C9 amended: the Metadata/Init round-trip reproduces the provider
exactly — hence with identical `Get` behavior — for every accepted oauth2
provider whose `use_pkce` is true and whose redirect port is non-zero, and
for every command provider whose file mode is non-empty; the excluded
values are not persisted by `Metadata` and revert to their defaults
(`use_pkce = true`, `redirect_port = 8085`, `file_mode = "0600"`). -/
theorem c9_roundtrip_amended :
    (∀ (config : ConfigMap) (disc : DiscoveryOracle) (p : OAuth2Config),
      oauth2Init config disc = .ok p → p.usePKCE = true →
      p.redirectPort ≠ 0 →
      oauth2Init (oauth2Metadata p) disc = .ok p) ∧
    (∀ (config : ConfigMap) (c : CommandConfig),
      commandInit config = .ok c → c.fileMode ≠ "" →
      commandInit (commandMetadata c) = .ok c) := by
  constructor
  · intro config disc p hinit hpkce hport
    obtain ⟨f1, f2, f3, f4, f5, f6, f7⟩ := oauth2Init_facts config disc p hinit
    exact oauth2_reinit p disc f1 f2 f3 f4 f5 f6 f7 hpkce hport
  · intro config c hinit hfm
    obtain ⟨cmd, fm, ev, fp, md, lc⟩ := c
    simp only [] at hfm
    by_cases h1 : ev = "" <;> by_cases h2 : fp = "" <;>
      by_cases h3 : md = "0600" <;> by_cases h4 : lc = "" <;>
      simp [commandInit, commandMetadata, cfgGet_append, cfgGet_cons,
        cfgGet_if_single, cfgGet_if_single2, cfgGet_nil, GetStringOrDefault,
        h1, h2, h3, h4, hfm]

/-- C9 amended witness: the theorem applied to a concrete auth-code
provider (PKCE on) and a concrete command provider. -/
theorem c9_roundtrip_amended_witness :
    oauth2Init (oauth2Metadata fixAuthCodeCfg) noDisc = .ok fixAuthCodeCfg ∧
    commandInit (commandMetadata { command := "echo hi",
                                   format := "raw",
                                   envVar := "",
                                   filePath := "",
                                   fileMode := "0600",
                                   loginCommand := "" }) =
      .ok { command := "echo hi", format := "raw", envVar := "",
            filePath := "", fileMode := "0600", loginCommand := "" } := by
  constructor
  · exact c9_roundtrip_amended.1 fixPkceConfig noDisc fixAuthCodeCfg rfl rfl
      (by decide)
  · exact c9_roundtrip_amended.2
      [("command", .str "echo hi")]
      { command := "echo hi", format := "raw", envVar := "", filePath := "",
        fileMode := "0600", loginCommand := "" } rfl (by decide)
